import Mathlib

/-!
# Ecoshift storefront modals: a verification development

A shallow embedding of the two React components of the repository,

* `src/components/ProductViewModal.jsx` (product detail presenter), and
* `src/components/auth/MerchantAuthModal.jsx` (merchant login / registration form),

followed by theorems about them.

JavaScript values are embedded as the inductive type `JSVal`.  An object is the list of its
own enumerable string-keyed properties *in enumeration order* (the order `Object.keys`
returns), without repeated keys.  Numbers are embedded as integers: the source depends on a
number only through its truthiness, its comparison with `0` and its decimal rendering.
An operation that throws a `TypeError` in JavaScript returns `none`.  The collaborators
(`fetch`, `localStorage`, `onSuccess`, `onClose`, `onAddToCart`, the location) are recorded
calls that return normally.
-/

namespace Ecoshift

/-- Sequencing inside an expression that may throw: `k` continues with the value of `o`, and a
throw (`none`) propagates. -/
@[noinline]
def andThen {α β : Type} (o : Option α) (k : α → Option β) : Option β :=
  match o with
  | none => none
  | some a => k a

/-! ## JavaScript values -/

/-- The JavaScript values that can reach the two components: `undefined`, and what `JSON.parse`
produces. -/
inductive JSVal where
  | undefined
  | null
  | bool (b : Bool)
  | num (n : Int)
  | str (s : String)
  | arr (xs : List JSVal)
  | obj (ps : List (String × JSVal))

namespace JSVal

/-- JavaScript `ToBoolean`: `undefined`, `null`, `false`, `0` and `''` are falsy, everything else
(every array and object included) is truthy. -/
def truthy : JSVal → Bool
  | undefined => false
  | null => false
  | bool b => b
  | num n => n != 0
  | str s => s != ""
  | arr _ => true
  | obj _ => true

/-- The expression `a || b` on values already evaluated. -/
def or (a b : JSVal) : JSVal :=
  if a.truthy then a else b

/-- The test `v === s` for a string literal `s`. -/
def strictEqStr : JSVal → String → Bool
  | str t, s => t == s
  | _, _ => false

/-- The test `v !== undefined`. -/
def isDefined : JSVal → Bool
  | undefined => false
  | _ => true

/-- The test `typeof v === 'object'` (which holds of `null` too). -/
def typeofObject : JSVal → Bool
  | null => true
  | arr _ => true
  | obj _ => true
  | _ => false

/-- Separator-joined concatenation of strings. -/
def joinWith (sep : String) : List String → String
  | [] => ""
  | [s] => s
  | s :: t => s ++ sep ++ joinWith sep t

mutual
/-- JavaScript `ToString`, the coercion applied by `localStorage.setItem`, by template literals
and by `Array.prototype.join` to the elements.  An array is converted by `join(',')`.  A plain
object is converted by the inherited `toString`, which gives `[object Object]`; when the object
has an own property `toString` (its value, coming from JSON, is not callable) the conversion
finds no method that yields a primitive and throws a `TypeError` (`none`). -/
def toStr : JSVal → Option String
  | undefined => some "undefined"
  | null => some "null"
  | bool true => some "true"
  | bool false => some "false"
  | num n => some (toString n)
  | str s => some s
  | arr xs =>
    match elemStrs xs with
    | some ss => some (joinWith "," ss)
    | none => none
  | obj ps =>
    match ps.lookup "toString" with
    | some _ => none
    | none => some "[object Object]"
/-- The strings `Array.prototype.join` puts between the separators: `undefined` and `null`
elements give the empty string, every other element its `ToString`; `none` when one of these
conversions throws. -/
def elemStrs : List JSVal → Option (List String)
  | [] => some []
  | undefined :: t =>
    match elemStrs t with
    | some r => some ("" :: r)
    | none => none
  | null :: t =>
    match elemStrs t with
    | some r => some ("" :: r)
    | none => none
  | v :: t =>
    match toStr v with
    | none => none
    | some s =>
      match elemStrs t with
      | some r => some (s :: r)
      | none => none
end

/-- The method call `xs.join(sep)` on an array with elements `xs`. -/
def join (xs : List JSVal) (sep : String) : Option String :=
  match elemStrs xs with
  | some ss => some (joinWith sep ss)
  | none => none

/-- Length of a string in UTF-16 code units, the value of `s.length`. -/
def utf16Length (s : String) : Nat :=
  (s.toList.map (fun c => if c.toNat < 65536 then 1 else 2)).sum

/-- The element of an array named by the property key `k`, when `k` is the decimal rendering of
an index below the length. -/
def index (xs : List JSVal) (k : String) : JSVal :=
  match (List.range xs.length).find? (fun i => toString i == k) with
  | some i => xs.getD i undefined
  | none => undefined

/-- Property read `v.k` / `v[k]`, for the property names the source reads: the names written in
the source, and on an object or array the name `firstKey` taken from `Object.keys`.  Reading a
property of `undefined` or `null` throws a `TypeError` (`none`).  Objects answer with their own
property, arrays with their elements and `length`, strings with their `length`; none of the
other names read by the source is defined on a prototype. -/
def getProp : JSVal → String → Option JSVal
  | undefined, _ => none
  | null, _ => none
  | obj ps, k => some ((ps.lookup k).getD undefined)
  | arr xs, k => some (if k == "length" then num xs.length else index xs k)
  | str s, k => some (if k == "length" then num (utf16Length s) else undefined)
  | _, _ => some undefined

/-- The list `Object.keys(v)` for a value with `typeof v === 'object'` that is not `null`. -/
def keys : JSVal → List String
  | obj ps => ps.map Prod.fst
  | arr xs => (List.range xs.length).map (fun i => toString i)
  | _ => []

/-- Escape of one character inside a JSON string literal, as `JSON.stringify` writes it. -/
def quoteChar (c : Char) : String :=
  if c.toNat = 34 then "\\\""
  else if c.toNat = 92 then "\\\\"
  else if c.toNat = 8 then "\\b"
  else if c.toNat = 9 then "\\t"
  else if c.toNat = 10 then "\\n"
  else if c.toNat = 12 then "\\f"
  else if c.toNat = 13 then "\\r"
  else if c.toNat < 32 then
    "\\u00" ++ String.singleton (Nat.digitChar (c.toNat / 16))
      ++ String.singleton (Nat.digitChar (c.toNat % 16))
  else String.singleton c

/-- JSON string literal for `s`. -/
def quote (s : String) : String :=
  "\"" ++ String.join (s.toList.map quoteChar) ++ "\""

mutual
/-- The call `JSON.stringify(v)`: `none` stands for the result `undefined`, which is what
`JSON.stringify(undefined)` returns. -/
def stringify : JSVal → Option String
  | undefined => none
  | null => some "null"
  | bool true => some "true"
  | bool false => some "false"
  | num n => some (toString n)
  | str s => some (quote s)
  | arr xs => some ("[" ++ joinWith "," (stringifyElems xs) ++ "]")
  | obj ps => some ("\x7b" ++ joinWith "," (stringifyProps ps) ++ "\x7d")
/-- Serialised array elements: an `undefined` element is written `null`. -/
def stringifyElems : List JSVal → List String
  | [] => []
  | v :: t => (stringify v).getD "null" :: stringifyElems t
/-- Serialised object members: a property whose value is `undefined` is left out. -/
def stringifyProps : List (String × JSVal) → List String
  | [] => []
  | (k, v) :: t =>
    match stringify v with
    | some s => (quote k ++ ":" ++ s) :: stringifyProps t
    | none => stringifyProps t
end

/-- The value of `JSON.stringify(v)` as a JavaScript value. -/
def stringifyVal (v : JSVal) : JSVal :=
  match stringify v with
  | some s => str s
  | none => undefined

end JSVal

/-- Short-circuit `a || b`: `b` is evaluated only when `a` is falsy, and may throw. -/
def JSVal.orElse (a : JSVal) (b : Option JSVal) : Option JSVal :=
  if a.truthy then some a else b

/-- The value of the read `v.k` when it does not throw (and `undefined` when it does). -/
def JSVal.read (v : JSVal) (k : String) : JSVal :=
  (v.getProp k).getD JSVal.undefined

/-! ## `ProductViewModal.jsx` -/

/-- The two collaborators of `ProductViewModal` a click handler may call. -/
inductive Call where
  | onAddToCart
  | onClose
  deriving DecidableEq

/-- The two alternatives of the primary action button (lines 151-169). -/
inductive PrimaryAction where
  | addToCart
  | viewProduct
  deriving DecidableEq

/-- Text of the primary button before the price: `Add to Cart - ` or `View Product - `. -/
def PrimaryAction.label : PrimaryAction → String
  | .addToCart => "Add to Cart"
  | .viewProduct => "View Product"

/-- The constants declared at lines 8-17 of `ProductViewModal`. -/
structure Resolved where
  productImage : JSVal
  productName : JSVal
  productBrand : JSVal
  productPrice : JSVal
  productRating : JSVal
  productCategory : JSVal
  productDescription : JSVal
  productTags : JSVal
  isInStock : JSVal
  ecoRating : JSVal

/-- Lines 8-17: resolution of the product fields, in source order.  `none` when a property read
throws. -/
def resolve (product : JSVal) : Option Resolved :=
  andThen (product.getProp "primary_image") fun primaryImage =>
  andThen (primaryImage.orElse (product.getProp "image")) fun productImage =>
  andThen (product.getProp "name") fun productName =>
  andThen (product.getProp "brand_name") fun brandName =>
  andThen (brandName.orElse (product.getProp "brand")) fun productBrand =>
  andThen (product.getProp "price") fun productPrice =>
  andThen (product.getProp "average_rating") fun averageRating =>
  andThen (averageRating.orElse (andThen (product.getProp "eco_rating") fun eco =>
    eco.orElse (product.getProp "rating"))) fun productRating =>
  andThen (product.getProp "category_name") fun categoryName =>
  andThen (categoryName.orElse (product.getProp "category")) fun productCategory =>
  andThen (product.getProp "description") fun description =>
  andThen (description.orElse (product.getProp "short_description")) fun productDescription =>
  andThen (product.getProp "tags") fun tags =>
  andThen (tags.orElse (some (JSVal.arr []))) fun productTags =>
  andThen (product.getProp "is_in_stock") fun stock =>
  andThen (if stock.isDefined then product.getProp "is_in_stock" else some (JSVal.bool true))
    fun isInStock =>
  andThen (product.getProp "eco_rating") fun eco =>
  andThen (eco.orElse (andThen (product.getProp "rating") fun rating =>
    rating.orElse (some (JSVal.num 0)))) fun ecoRating =>
  some (Resolved.mk productImage productName productBrand productPrice productRating
    productCategory productDescription productTags isInStock ecoRating)

/-- The comparison `len > 0` of line 84.  The conversion of a string to a number is the host's:
`strGtZero s` tells whether `Number(s) > 0`.  An array or object is first converted to a
primitive, which gives its `ToString` (for a plain object: not a number) and may throw. -/
def gtZero (strGtZero : String → Bool) : JSVal → Option Bool
  | .undefined => some false
  | .null => some false
  | .bool b => some b
  | .num n => some (decide (0 < n))
  | .str s => some (strGtZero s)
  | .arr xs =>
    match (JSVal.arr xs).toStr with
    | some t => some (strGtZero t)
    | none => none
  | .obj ps =>
    match ps.lookup "toString" with
    | some _ => none
    | none => some false

/-- Lines 84-98: `productTags.length > 0 && (... productTags.map(...) ...)`.  The tags shown, or
`none` when the expression throws (`productTags.map is not a function`: only arrays have a
callable `map`). -/
def tagsSection (strGtZero : String → Bool) (productTags : JSVal) : Option (List JSVal) :=
  andThen (productTags.getProp "length") fun len =>
  andThen (gtZero strGtZero len) fun positive =>
  if positive then
    match productTags with
    | .arr xs => some xs
    | _ => none
  else some []

/-- Lines 151-169: which primary button is rendered and what its click handler calls.
`none` when the condition throws. -/
def primaryAction (user isInStock : JSVal) : Option (PrimaryAction × List Call) :=
  andThen (if user.truthy then
      andThen (user.getProp "user_type") fun t =>
        some (t.strictEqStr "customer" && isInStock.truthy)
    else some false) fun cond =>
  if cond then some (PrimaryAction.addToCart, [Call.onAddToCart, Call.onClose])
  else some (PrimaryAction.viewProduct, [Call.onClose])

/-- What the component function returns: the content of each section of the element.  A section
guarded by a falsy value is absent (`none`, `false` or the empty list); the view does not
record the guard value itself. -/
structure ProductView where
  /-- Lines 40-50: `src` of the image, or `none` for the placeholder glyph. -/
  image : Option JSVal
  /-- Line 57: the value shown after `Eco Rating: `. -/
  ecoRating : JSVal
  name : JSVal
  brand : JSVal
  price : JSVal
  category : JSVal
  /-- Lines 76-81. -/
  description : Option JSVal
  /-- Lines 84-98. -/
  tags : List JSVal
  organic : Bool
  biodegradable : Bool
  recyclable : Bool
  plasticFree : Bool
  /-- Lines 136-146: `In Stock` (true) or `Out of Stock`. -/
  inStock : Bool
  /-- Lines 151-169. -/
  primary : PrimaryAction
  primaryClick : List Call
  /-- Lines 171-176: the `Close` button. -/
  closeClick : List Call
  /-- Lines 26-31: the header button. -/
  headerCloseClick : List Call

/-- Outcome of calling the component function. -/
inductive RenderResult where
  /-- The component returned `null`. -/
  | noOutput
  /-- The component threw while building its element. -/
  | threw
  /-- The component returned an element. -/
  | view (v : ProductView)

/-- The element a render returned, if it returned one. -/
def RenderResult.view? : RenderResult → Option ProductView
  | .view v => some v
  | _ => none

/-- The element built by lines 19-183, `none` when building it throws. -/
def ProductViewModal.body (strGtZero : String → Bool) (product user : JSVal) :
    Option ProductView :=
  andThen (resolve product) fun r =>
  andThen (tagsSection strGtZero r.productTags) fun tags =>
  andThen (product.getProp "is_organic") fun organic =>
  andThen (product.getProp "is_biodegradable") fun biodegradable =>
  andThen (product.getProp "is_recyclable") fun recyclable =>
  andThen (product.getProp "is_plastic_free") fun plasticFree =>
  andThen (primaryAction user r.isInStock) fun act =>
  some {
    image := if r.productImage.truthy then some r.productImage else none
    ecoRating := r.ecoRating
    name := r.productName
    brand := r.productBrand
    price := r.productPrice
    category := r.productCategory
    description := if r.productDescription.truthy then some r.productDescription else none
    tags := tags
    organic := organic.truthy
    biodegradable := biodegradable.truthy
    recyclable := recyclable.truthy
    plasticFree := plasticFree.truthy
    inStock := r.isInStock.truthy
    primary := act.1
    primaryClick := act.2
    closeClick := [Call.onClose]
    headerCloseClick := [Call.onClose] }

/-- The component `ProductViewModal({ isOpen, onClose, product, onAddToCart, user })`. -/
def ProductViewModal (strGtZero : String → Bool) (isOpen product user : JSVal) : RenderResult :=
  if !isOpen.truthy || !product.truthy then RenderResult.noOutput
  else
    match ProductViewModal.body strGtZero product user with
    | some v => RenderResult.view v
    | none => RenderResult.threw

/-! ## `auth/MerchantAuthModal.jsx` -/

/-- Update of a record kept as a list of properties, the spread-and-set of lines 33-36: an
existing property keeps its place and takes the new value, a new property is added at the
end. -/
def setField {α : Type} (name : String) (value : α) : List (String × α) → List (String × α)
  | [] => [(name, value)]
  | (k, v) :: t => if k == name then (k, value) :: t else (k, v) :: setField name value t

/-- The object literal of lines 7-18 and 103-114: the form with every field reset. -/
def emptyForm : List (String × String) :=
  [("email", ""), ("password", ""), ("confirmPassword", ""), ("firstName", ""),
   ("lastName", ""), ("username", ""), ("phoneNumber", ""), ("businessName", ""),
   ("businessType", ""), ("userType", "merchant")]

/-- The `useState` cells of `MerchantAuthModal` (lines 5-20). -/
structure ModalState where
  authType : String
  showPassword : Bool
  formData : List (String × String)
  isLoading : Bool
  error : JSVal

/-- The state at mount, for the prop `type` (default `'login'`). -/
def initialState (type : String) : ModalState :=
  { authType := type, showPassword := false, formData := emptyForm, isLoading := false,
    error := JSVal.str "" }

/-- The read `formData.k`. -/
def formField (formData : List (String × String)) (k : String) : JSVal :=
  match formData.lookup k with
  | some v => JSVal.str v
  | none => JSVal.undefined

/-- Lines 31-38: `handleInputChange` for an event whose target has the given `name` and `value`. -/
def handleInputChange (name value : String) (s : ModalState) : ModalState :=
  { s with formData := setField name value s.formData, error := JSVal.str "" }

/-- Lines 100-115: `toggleAuthType`. -/
def toggleAuthType (s : ModalState) : ModalState :=
  { s with
    authType := if s.authType == "login" then "register" else "login"
    error := JSVal.str ""
    formData := emptyForm }

/-- The `name` attributes of the inputs rendered for a mode (lines 206-403): the registration
inputs appear only when `authType === 'register'`, e-mail and password always. -/
def renderedInputs (authType : String) : List String :=
  (if authType == "register" then
    ["businessName", "businessType", "firstName", "lastName", "username", "phoneNumber"]
   else [])
  ++ ["email", "password"]
  ++ (if authType == "register" then ["confirmPassword"] else [])

/-- Line 408: the `disabled` attribute of the submit button. -/
def submitDisabled (s : ModalState) : Bool :=
  s.isLoading

/-- The ambient configuration read at line 46. -/
structure Env where
  /-- The value of `import.meta.env`. -/
  importMetaEnv : JSVal
  /-- The value of `window.__API_BASE__`. -/
  windowApiBase : JSVal

/-- The access `import.meta.env?.VITE_API_BASE`: `undefined` when `import.meta.env` is
`undefined` or `null`. -/
def viteApiBase (env : Env) : JSVal :=
  match env.importMetaEnv.getProp "VITE_API_BASE" with
  | some v => v
  | none => JSVal.undefined

/-- Line 46: `API_BASE`. -/
def apiBase (env : Env) : JSVal :=
  (viteApiBase env).or (env.windowApiBase.or (JSVal.str "http://127.0.0.1:5000"))

/-- Line 47: `endpoint`. -/
def endpoint (authType : String) : String :=
  if authType == "login" then "/api/auth/login/" else "/api/auth/register/"

/-- Lines 49-65: `payload`. -/
def payload (authType : String) (formData : List (String × String)) : JSVal :=
  if authType == "login" then
    JSVal.obj [("email", formField formData "email"),
               ("password", formField formData "password")]
  else
    JSVal.obj [("email", formField formData "email"),
               ("username", formField formData "username"),
               ("first_name", formField formData "firstName"),
               ("last_name", formField formData "lastName"),
               ("user_type", formField formData "userType"),
               ("phone_number", (formField formData "phoneNumber").or (JSVal.str "")),
               ("business_name", formField formData "businessName"),
               ("business_type", formField formData "businessType"),
               ("password", formField formData "password"),
               ("password_confirm", formField formData "confirmPassword")]

/-- The arguments of the `fetch` call of lines 67-73. -/
structure Request where
  url : String
  method : String
  headers : List (String × String)
  body : JSVal

/-- The request built by lines 46-73 from the state the handler closed over; `none` when the
template literal of line 67 throws on converting `API_BASE` to a string. -/
def submitRequest (env : Env) (s : ModalState) : Option Request :=
  match (apiBase env).toStr with
  | some base =>
    some { url := base ++ endpoint s.authType
           method := "POST"
           headers := [("Content-Type", "application/json")]
           body := (payload s.authType s.formData).stringifyVal }
  | none => none

/-- A call on a collaborator of `MerchantAuthModal`, as recorded in the order it is made. -/
inductive Effect where
  | fetch (r : Request)
  | setItem (key value : String)
  | onSuccess (user : JSVal)
  | navigate (href : String)

/-- The browser environment the handler acts on: `localStorage`, `window.location.href`, and the
record of the collaborator calls made so far, oldest first. -/
structure World where
  storage : List (String × String)
  href : String
  log : List Effect

/-- The call `localStorage.setItem(key, value)`; the value is converted to a string, and
nothing is stored when that conversion throws (`none`). -/
def World.setItem (key : String) (value : JSVal) (w : World) : Option World :=
  match value.toStr with
  | some v =>
    some { w with storage := setField key v w.storage, log := w.log ++ [Effect.setItem key v] }
  | none => none

/-- The call `localStorage.getItem(key)`. -/
def World.getItem (w : World) (key : String) : Option String :=
  w.storage.lookup key

/-- The call `onSuccess(user)`. -/
def World.callOnSuccess (user : JSVal) (w : World) : World :=
  { w with log := w.log ++ [Effect.onSuccess user] }

/-- The assignment `window.location.href = href`. -/
def World.navigate (href : String) (w : World) : World :=
  { w with href := href, log := w.log ++ [Effect.navigate href] }

/-- The call `fetch(url, options)`. -/
def World.fetch (r : Request) (w : World) : World :=
  { w with log := w.log ++ [Effect.fetch r] }

/-- How the awaited request ends: `fetch` rejects, or it resolves to a response with the flag
`response.ok` and the result of `response.json()`, which is `none` when that promise rejects
(the body is not JSON). -/
inductive FetchOutcome where
  | rejected
  | response (ok : Bool) (json : Option JSVal)

/-- Lines 78-86, the branch `response.ok`.  The world after the statements that ran, and whether
the branch ran to its end (`false`: a statement threw, and the ones after it did not run). -/
def successBranch (onSuccess : Bool) (data : JSVal) (w : World) : World × Bool :=
  match data.getProp "access" with
  | none => (w, false)
  | some access =>
  match w.setItem "access_token" access with
  | none => (w, false)
  | some w1 =>
  match data.getProp "refresh" with
  | none => (w1, false)
  | some refresh =>
  match w1.setItem "refresh_token" refresh with
  | none => (w1, false)
  | some w2 =>
  match data.getProp "user" with
  | none => (w2, false)
  | some user =>
  match w2.setItem "user" user.stringifyVal with
  | none => (w2, false)
  | some w3 =>
  match (if onSuccess then data.getProp "user" else some JSVal.undefined) with
  | none => (w3, false)
  | some user2 =>
    ((if onSuccess then w3.callOnSuccess user2 else w3).navigate "/merchant-portal", true)

/-- Line 88: `firstKey`. -/
def firstKey (data : JSVal) : JSVal :=
  if data.truthy && data.typeofObject then
    match data.keys with
    | k :: _ => JSVal.str k
    | [] => JSVal.undefined
  else JSVal.null

/-- Line 89: `firstVal`. -/
def firstVal (data : JSVal) : Option JSVal :=
  if (firstKey data).truthy then
    andThen (firstKey data).toStr fun key => data.getProp key
  else some JSVal.null

/-- Line 90: `msg`, from the value of `firstVal`; `none` when `join` throws. -/
def msgOf : JSVal → Option JSVal
  | .str s => some (JSVal.str s)
  | .arr xs =>
    match JSVal.join xs ", " with
    | some m => some (JSVal.str m)
    | none => none
  | _ => some JSVal.null

/-- Lines 88-91, the branch taken when `response.ok` is false: the argument of `setError`, or
`none` when evaluating it throws. -/
def failureMessage (data : JSVal) : Option JSVal :=
  andThen (firstVal data) fun fv =>
  andThen (msgOf fv) fun msg =>
  andThen (data.getProp "detail") fun detail =>
  detail.orElse (andThen (data.getProp "error") fun error =>
    error.orElse (andThen (data.getProp "message") fun message =>
      message.orElse (msg.orElse (some (JSVal.str "Request failed")))))

/-- The message set by the `catch` block, line 94. -/
def networkError : JSVal :=
  JSVal.str "Network error. Please try again."

/-- Where `handleSubmit` stands when it first returns control: the state, the browser
environment, and the request it awaits, if it sent one. -/
structure Begun where
  state : ModalState
  world : World
  request : Option Request

/-- Lines 41-73: the part of `handleSubmit` that runs before the handler suspends at
`await fetch(...)`.  When building the request throws, no request is sent and the `catch` and
`finally` blocks run at once. -/
def handleSubmitBegin (env : Env) (s : ModalState) (w : World) : Begun :=
  match submitRequest env s with
  | some r =>
    { state := { s with isLoading := true, error := JSVal.str "" }
      world := w.fetch r
      request := some r }
  | none =>
    { state := { s with isLoading := false, error := networkError }
      world := w
      request := none }

/-- Lines 75-97: the part of `handleSubmit` that runs once the awaited request has ended, with
the `catch` and `finally` blocks. -/
def handleSubmitResume (onSuccess : Bool) (o : FetchOutcome) (s : ModalState) (w : World) :
    ModalState × World :=
  let r : ModalState × World :=
    match o with
    | .rejected => ({ s with error := networkError }, w)
    | .response _ none => ({ s with error := networkError }, w)
    | .response true (some data) =>
      match successBranch onSuccess data w with
      | (w1, true) => (s, w1)
      | (w1, false) => ({ s with error := networkError }, w1)
    | .response false (some data) =>
      match failureMessage data with
      | some m => ({ s with error := m }, w)
      | none => ({ s with error := networkError }, w)
  ({ r.1 with isLoading := false }, r.2)

/-- Lines 40-98: `handleSubmit` run from the submit event to its end, for a request that ends
as `o`, no other event intervening. -/
def handleSubmit (env : Env) (onSuccess : Bool) (o : FetchOutcome) (s : ModalState) (w : World) :
    ModalState × World :=
  match (handleSubmitBegin env s w).request with
  | some _ =>
    handleSubmitResume onSuccess o (handleSubmitBegin env s w).state
      (handleSubmitBegin env s w).world
  | none => ((handleSubmitBegin env s w).state, (handleSubmitBegin env s w).world)

/-! ### The mounted form as a transition system -/

/-- What can happen to a mounted form: the user edits an input, presses the mode toggle or the
password-visibility toggle, activates the submit control, or the pending request ends. -/
inductive Event where
  | input (name value : String)
  | toggleAuth
  | toggleShowPassword
  | submit
  | settle (o : FetchOutcome)

/-- A mounted form: its state, the browser environment, and the requests awaited by a suspended
`handleSubmit`, oldest first. -/
structure Form where
  state : ModalState
  world : World
  pending : List Request

/-- A freshly mounted form. -/
def Form.mount (type : String) (w : World) : Form :=
  { state := initialState type, world := w, pending := [] }

/-- One event.  An input event comes only from an input that is rendered; activating the
submit control does nothing while the control is disabled; a request can end only if one is
pending. -/
def Form.step (env : Env) (onSuccess : Bool) (f : Form) : Event → Form
  | .input name value =>
    if (renderedInputs f.state.authType).contains name then
      { f with state := handleInputChange name value f.state }
    else f
  | .toggleAuth => { f with state := toggleAuthType f.state }
  | .toggleShowPassword =>
    { f with state := { f.state with showPassword := !f.state.showPassword } }
  | .submit =>
    if submitDisabled f.state then f
    else
      { state := (handleSubmitBegin env f.state f.world).state
        world := (handleSubmitBegin env f.state f.world).world
        pending := f.pending ++ (handleSubmitBegin env f.state f.world).request.toList }
  | .settle o =>
    match f.pending with
    | [] => f
    | _ :: rest =>
      { state := (handleSubmitResume onSuccess o f.state f.world).1
        world := (handleSubmitResume onSuccess o f.state f.world).2
        pending := rest }

/-- The form after a sequence of events. -/
def Form.run (env : Env) (onSuccess : Bool) (f : Form) (evs : List Event) : Form :=
  evs.foldl (Form.step env onSuccess) f

/-- The shape of the form record: the ten properties of the literal of lines 7-18, in that
order, `userType` holding `merchant`. -/
def FormShape (formData : List (String × String)) : Prop :=
  ∃ email password confirmPassword firstName lastName username phoneNumber businessName
      businessType : String,
    formData =
      [("email", email), ("password", password), ("confirmPassword", confirmPassword),
       ("firstName", firstName), ("lastName", lastName), ("username", username),
       ("phoneNumber", phoneNumber), ("businessName", businessName),
       ("businessType", businessType), ("userType", "merchant")]

/-- The form is idle or awaits exactly one request, and `isLoading` tells which. -/
def Form.Consistent (f : Form) : Prop :=
  f.pending.length ≤ 1 ∧ (f.state.isLoading = true ↔ f.pending ≠ [])

/-! ## Sample inputs -/

/-- A product record with no optional field. -/
def sampleProduct : JSVal :=
  JSVal.obj [("name", JSVal.str "Bamboo brush"), ("price", JSVal.num 4)]

/-- A user whose `user_type` is `customer`. -/
def sampleCustomer : JSVal :=
  JSVal.obj [("user_type", JSVal.str "customer")]

/-- A user record that carries `role: 'customer'` and no `user_type`. -/
def sampleRoleUser : JSVal :=
  JSVal.obj [("role", JSVal.str "customer")]

/-- What `ProductViewModal` renders for `sampleProduct` and `sampleCustomer`. -/
def sampleView : ProductView :=
  { image := none
    ecoRating := JSVal.num 0
    name := JSVal.str "Bamboo brush"
    brand := JSVal.undefined
    price := JSVal.num 4
    category := JSVal.undefined
    description := none
    tags := []
    organic := false
    biodegradable := false
    recyclable := false
    plasticFree := false
    inStock := true
    primary := PrimaryAction.addToCart
    primaryClick := [Call.onAddToCart, Call.onClose]
    closeClick := [Call.onClose]
    headerCloseClick := [Call.onClose] }

/-- The gate of the primary action in the words of the specification: `user` is non-null,
`user.role` equals `"customer"`, and the resolved stock flag is `true`. -/
def specAddToCartGate (user isInStock : JSVal) : Bool :=
  match user.getProp "role", isInStock with
  | some (JSVal.str role), JSVal.bool true => role == "customer"
  | _, _ => false

/-- An environment whose build-time variable `VITE_API_BASE` is set, together with a runtime
override. -/
def sampleViteEnv : Env :=
  { importMetaEnv := JSVal.obj [("VITE_API_BASE", JSVal.str "https://api.example.org")]
    windowApiBase := JSVal.str "https://override.example.org" }

/-- The names of the nine rendered inputs, the text fields of the form. -/
def textFields : List String :=
  ["email", "password", "confirmPassword", "firstName", "lastName", "username", "phoneNumber",
   "businessName", "businessType"]

/-- An environment with neither `VITE_API_BASE` nor `window.__API_BASE__`. -/
def sampleEnv : Env :=
  { importMetaEnv := JSVal.obj [], windowApiBase := JSVal.undefined }

/-- A browser environment with empty storage and no call made. -/
def emptyWorld : World :=
  { storage := [], href := "/", log := [] }

/-- The request an untouched login form sends under `sampleEnv`. -/
def sampleLoginRequest : Request :=
  { url := "http://127.0.0.1:5000/api/auth/login/"
    method := "POST"
    headers := [("Content-Type", "application/json")]
    body := JSVal.str "\x7b\"email\":\"\",\"password\":\"\"\x7d" }

/-- A success body with both tokens and a user record. -/
def sampleSuccessBody : JSVal :=
  JSVal.obj [("access", JSVal.str "A"), ("refresh", JSVal.str "R"),
             ("user", JSVal.obj [("id", JSVal.num 1)])]

/-- The login form after typing `a@b.com` and `x`. -/
def sampleLoginState : ModalState :=
  handleInputChange "password" "x" (handleInputChange "email" "a@b.com" (initialState "login"))

/-- A product that carries both names of the image and of the category. -/
def sampleBothAliases : JSVal :=
  JSVal.obj [("image", JSVal.str "mock.png"), ("primary_image", JSVal.str "api.png"),
             ("category", JSVal.str "Home"), ("category_name", JSVal.str "Kitchen")]

/-- The alias resolution in the words of the specification: the value of the first alias, in
the order in which the aliases are listed, that is present; `undefined` when none is. -/
def specResolve (product : JSVal) : List String → JSVal
  | [] => JSVal.undefined
  | k :: rest => if (product.read k).isDefined then product.read k else specResolve product rest

/-- The alias pairs of `ProductViewModal` whose two names are interchangeable: the name read
first, then the name read second. -/
def aliasPairs : List (String × String) :=
  [("primary_image", "image"), ("category_name", "category"),
   ("description", "short_description"), ("eco_rating", "rating")]

/-- A product whose only rating field is `average_rating`. -/
def sampleAverageRated : JSVal :=
  JSVal.obj [("average_rating", JSVal.num 4)]

/-- A product whose only rating field is `rating`. -/
def sampleRated : JSVal :=
  JSVal.obj [("rating", JSVal.num 4)]

/-- A product whose `tags` field is a string instead of a list. -/
def sampleStringTags : JSVal :=
  JSVal.obj [("name", JSVal.str "Bamboo brush"), ("tags", JSVal.str "eco")]

/-- What `ProductViewModal` renders for the product with no field at all and no user. -/
def sampleBareView : ProductView :=
  { image := none
    ecoRating := JSVal.num 0
    name := JSVal.undefined
    brand := JSVal.undefined
    price := JSVal.undefined
    category := JSVal.undefined
    description := none
    tags := []
    organic := false
    biodegradable := false
    recyclable := false
    plasticFree := false
    inStock := true
    primary := PrimaryAction.viewProduct
    primaryClick := [Call.onClose]
    closeClick := [Call.onClose]
    headerCloseClick := [Call.onClose] }

/-! ## Lemmas on the embedding -/

theorem andThen_some {α β : Type} (a : α) (k : α → Option β) : andThen (some a) k = k a := rfl

theorem andThen_none {α β : Type} (k : α → Option β) : andThen none k = none := rfl

theorem andThen_eq_some {α β : Type} (o : Option α) (k : α → Option β) (b : β) :
    andThen o k = some b ↔ ∃ a, o = some a ∧ k a = some b := by
  cases o with
  | none => simp [andThen]
  | some a => simp [andThen]

theorem strictEqStr_iff (v : JSVal) (s : String) : v.strictEqStr s = true ↔ v = JSVal.str s := by
  cases v <;> simp [JSVal.strictEqStr]

/-- A property read on a truthy value does not throw. -/
theorem getProp_isSome_of_truthy (v : JSVal) (k : String) (h : v.truthy = true) :
    ∃ a, v.getProp k = some a := by
  cases v <;> simp [JSVal.truthy, JSVal.getProp] at h ⊢

/-- A property read throws only on `undefined` and `null`. -/
theorem getProp_isSome (v : JSVal) (k : String) (h1 : v ≠ JSVal.null)
    (h2 : v ≠ JSVal.undefined) : ∃ a, v.getProp k = some a := by
  cases v <;> simp [JSVal.getProp] at h1 h2 ⊢

/-- Line 88 yields `null`, `undefined` or a property name. -/
theorem firstKey_cases (data : JSVal) :
    firstKey data = JSVal.null ∨ firstKey data = JSVal.undefined ∨
      ∃ k, firstKey data = JSVal.str k := by
  unfold firstKey
  split
  · split
    · exact Or.inr (Or.inr ⟨_, rfl⟩)
    · exact Or.inr (Or.inl rfl)
  · exact Or.inl rfl

/-- Line 89 does not throw on a body other than `undefined` and `null`. -/
theorem firstVal_isSome (data : JSVal) (h1 : data ≠ JSVal.null) (h2 : data ≠ JSVal.undefined) :
    ∃ fv, firstVal data = some fv := by
  unfold firstVal
  rcases firstKey_cases data with h | h | ⟨k, h⟩
  · rw [h]; exact ⟨_, rfl⟩
  · rw [h]; exact ⟨_, rfl⟩
  · rw [h]
    split
    · simp only [JSVal.toStr, andThen_some]
      exact getProp_isSome data _ h1 h2
    · exact ⟨_, rfl⟩

theorem lookup_setField_self {α : Type} (k : String) (v : α) (l : List (String × α)) :
    (setField k v l).lookup k = some v := by
  induction l with
  | nil => simp [setField, List.lookup]
  | cons p t ih =>
    obtain ⟨k1, v1⟩ := p
    by_cases h : k1 = k
    · subst h
      simp [setField, List.lookup]
    · have h2 : (k == k1) = false := by
        rw [beq_eq_false_iff_ne]
        exact fun e => h e.symm
      simp [setField, h, List.lookup, h2, ih]

theorem lookup_setField_ne {α : Type} (k k2 : String) (v : α) (l : List (String × α))
    (hne : k2 ≠ k) : (setField k v l).lookup k2 = l.lookup k2 := by
  induction l with
  | nil =>
    have h2 : (k2 == k) = false := by
      rw [beq_eq_false_iff_ne]
      exact hne
    simp [setField, List.lookup, h2]
  | cons p t ih =>
    obtain ⟨k1, v1⟩ := p
    by_cases h : k1 = k
    · subst h
      have h2 : (k2 == k1) = false := by
        rw [beq_eq_false_iff_ne]
        exact hne
      simp [setField, List.lookup, h2]
    · by_cases h3 : k2 = k1
      · subst h3
        simp [setField, h, List.lookup]
      · have h4 : (k2 == k1) = false := by
          rw [beq_eq_false_iff_ne]
          exact h3
        simp [setField, h, List.lookup, h4, ih]

/-- Joining an array of strings concatenates them with the separator. -/
theorem elemStrs_map_str (ss : List String) :
    JSVal.elemStrs (ss.map JSVal.str) = some ss := by
  induction ss with
  | nil => simp [JSVal.elemStrs]
  | cons a t ih => simp [JSVal.elemStrs, JSVal.toStr, ih]

/-- Once the request is built, `handleSubmit` sends it and continues with the response. -/
theorem handleSubmit_of_request (env : Env) (onSuccess : Bool) (o : FetchOutcome)
    (s : ModalState) (w : World) (r : Request) (hreq : submitRequest env s = some r) :
    handleSubmit env onSuccess o s w =
      handleSubmitResume onSuccess o { s with isLoading := true, error := JSVal.str "" }
        (w.fetch r) := by
  simp [handleSubmit, handleSubmitBegin, hreq]

theorem run_cons (env : Env) (onSuccess : Bool) (f : Form) (e : Event) (es : List Event) :
    Form.run env onSuccess f (e :: es) = Form.run env onSuccess (Form.step env onSuccess f e) es :=
  rfl

/-- Editing a rendered input keeps the shape of the form record. -/
theorem formShape_setField (authType name value : String) (fd : List (String × String))
    (hn : (renderedInputs authType).contains name = true) (h : FormShape fd) :
    FormShape (setField name value fd) := by
  obtain ⟨e, p, c, fn, ln, u, ph, bn, bt, rfl⟩ := h
  have hmem : name ∈ ["businessName", "businessType", "firstName", "lastName", "username",
      "phoneNumber", "email", "password", "confirmPassword"] := by
    unfold renderedInputs at hn
    split_ifs at hn <;> simp at hn ⊢ <;> tauto
  simp only [List.mem_cons, List.mem_singleton, List.not_mem_nil, or_false] at hmem
  rcases hmem with h | h | h | h | h | h | h | h | h <;> subst h
  · exact ⟨e, p, c, fn, ln, u, ph, value, bt, by simp [setField]⟩
  · exact ⟨e, p, c, fn, ln, u, ph, bn, value, by simp [setField]⟩
  · exact ⟨e, p, c, value, ln, u, ph, bn, bt, by simp [setField]⟩
  · exact ⟨e, p, c, fn, value, u, ph, bn, bt, by simp [setField]⟩
  · exact ⟨e, p, c, fn, ln, value, ph, bn, bt, by simp [setField]⟩
  · exact ⟨e, p, c, fn, ln, u, value, bn, bt, by simp [setField]⟩
  · exact ⟨value, p, c, fn, ln, u, ph, bn, bt, by simp [setField]⟩
  · exact ⟨e, value, c, fn, ln, u, ph, bn, bt, by simp [setField]⟩
  · exact ⟨e, p, value, fn, ln, u, ph, bn, bt, by simp [setField]⟩

theorem formShape_emptyForm : FormShape emptyForm :=
  ⟨"", "", "", "", "", "", "", "", "", rfl⟩

/-- The continuation of `handleSubmit` does not touch the form record. -/
theorem resume_formData (onSuccess : Bool) (o : FetchOutcome) (s : ModalState) (w : World) :
    (handleSubmitResume onSuccess o s w).1.formData = s.formData := by
  cases o with
  | rejected => rfl
  | response ok json =>
    cases json with
    | none => cases ok <;> rfl
    | some data =>
      cases ok with
      | true =>
        simp only [handleSubmitResume]
        split <;> rfl
      | false =>
        simp only [handleSubmitResume]
        split <;> rfl

/-- No event changes the shape of the form record. -/
theorem formShape_step (env : Env) (onSuccess : Bool) (f : Form) (e : Event)
    (h : FormShape f.state.formData) :
    FormShape (Form.step env onSuccess f e).state.formData := by
  cases e with
  | input name value =>
    simp only [Form.step]
    split
    · rename_i hn
      exact formShape_setField _ _ _ _ hn h
    · exact h
  | toggleAuth => exact formShape_emptyForm
  | toggleShowPassword => exact h
  | submit =>
    simp only [Form.step]
    split
    · exact h
    · simp only [handleSubmitBegin]
      split <;> exact h
  | settle o =>
    simp only [Form.step]
    split
    · exact h
    · rw [resume_formData]
      exact h

theorem formShape_run (env : Env) (onSuccess : Bool) (evs : List Event) :
    ∀ f : Form, FormShape f.state.formData →
      FormShape (Form.run env onSuccess f evs).state.formData := by
  induction evs with
  | nil => intro f h; exact h
  | cons e es ih =>
    intro f h
    rw [run_cons]
    exact ih _ (formShape_step env onSuccess f e h)

/-- The continuation of `handleSubmit` always leaves `isLoading` false (the `finally` block). -/
theorem resume_isLoading (onSuccess : Bool) (o : FetchOutcome) (s : ModalState) (w : World) :
    (handleSubmitResume onSuccess o s w).1.isLoading = false :=
  rfl

/-- No event breaks the agreement between `isLoading` and the pending requests. -/
theorem consistent_step (env : Env) (onSuccess : Bool) (f : Form) (e : Event)
    (h : f.Consistent) : (Form.step env onSuccess f e).Consistent := by
  obtain ⟨hlen, hiff⟩ := h
  cases e with
  | input name value =>
    simp only [Form.step]
    split
    · exact ⟨hlen, hiff⟩
    · exact ⟨hlen, hiff⟩
  | toggleAuth => exact ⟨hlen, hiff⟩
  | toggleShowPassword => exact ⟨hlen, hiff⟩
  | submit =>
    simp only [Form.step]
    split
    · exact ⟨hlen, hiff⟩
    · rename_i hd
      have hp : f.pending = [] := by
        by_contra hne
        exact hd (hiff.mpr hne)
      cases hreq : submitRequest env f.state with
      | none => simp [Form.Consistent, handleSubmitBegin, hreq, hp]
      | some r => simp [Form.Consistent, handleSubmitBegin, hreq, hp]
  | settle o =>
    simp only [Form.step]
    split
    · exact ⟨hlen, hiff⟩
    · rename_i r rest hp
      have hrest : rest = [] := by
        rw [hp] at hlen
        simp at hlen
        exact hlen
      constructor
      · simp [hrest]
      · simp [hrest, resume_isLoading]

theorem consistent_run (env : Env) (onSuccess : Bool) (evs : List Event) :
    ∀ f : Form, f.Consistent → (Form.run env onSuccess f evs).Consistent := by
  induction evs with
  | nil => intro f h; exact h
  | cons e es ih =>
    intro f h
    rw [run_cons]
    exact ih _ (consistent_step env onSuccess f e h)

theorem consistent_mount (type : String) (w : World) : (Form.mount type w).Consistent := by
  simp [Form.Consistent, Form.mount, initialState]

/-- On a value other than `undefined` and `null` a property read yields its value. -/
theorem getProp_eq_read (v : JSVal) (k : String) (h1 : v ≠ JSVal.null)
    (h2 : v ≠ JSVal.undefined) : v.getProp k = some (v.read k) := by
  obtain ⟨a, ha⟩ := getProp_isSome v k h1 h2
  simp [JSVal.read, ha]

theorem orElse_some (a b : JSVal) : a.orElse (some b) = some (a.or b) := by
  unfold JSVal.orElse JSVal.or
  split <;> rfl

theorem ite_some_some {α : Type} (c : Bool) (a b : α) :
    (if c = true then some a else some b) = some (if c = true then a else b) := by
  cases c <;> rfl

/-- Lines 8-17 in closed form, for a product other than `undefined` and `null`. -/
theorem resolve_eq (product : JSVal) (h1 : product ≠ JSVal.null)
    (h2 : product ≠ JSVal.undefined) :
    resolve product = some
      { productImage := (product.read "primary_image").or (product.read "image")
        productName := product.read "name"
        productBrand := (product.read "brand_name").or (product.read "brand")
        productPrice := product.read "price"
        productRating := (product.read "average_rating").or
          ((product.read "eco_rating").or (product.read "rating"))
        productCategory := (product.read "category_name").or (product.read "category")
        productDescription :=
          (product.read "description").or (product.read "short_description")
        productTags := (product.read "tags").or (JSVal.arr [])
        isInStock :=
          if (product.read "is_in_stock").isDefined = true then product.read "is_in_stock"
          else JSVal.bool true
        ecoRating := (product.read "eco_rating").or
          ((product.read "rating").or (JSVal.num 0)) } := by
  simp only [resolve, getProp_eq_read product _ h1 h2, andThen_some, orElse_some, ite_some_some]

/-- A truthy value is neither `null` nor `undefined`. -/
theorem ne_null_of_truthy (v : JSVal) (h : v.truthy = true) :
    v ≠ JSVal.null ∧ v ≠ JSVal.undefined := by
  cases v <;> simp [JSVal.truthy] at h ⊢

theorem read_obj (ps : List (String × JSVal)) (k : String) :
    (JSVal.obj ps).read k = (ps.lookup k).getD JSVal.undefined := rfl

theorem or_of_truthy (a b : JSVal) (h : a.truthy = true) : a.or b = a := by
  simp [JSVal.or, h]

theorem undefined_or (b : JSVal) : JSVal.undefined.or b = b := rfl

/-- Two products with the same resolved constants and the same eco-attribute flags are rendered
alike. -/
theorem view_congr (strGtZero : String → Bool) (isOpen user p1 p2 : JSVal)
    (h1 : p1.truthy = true) (h2 : p2.truthy = true) (hres : resolve p1 = resolve p2)
    (ho : p1.read "is_organic" = p2.read "is_organic")
    (hb : p1.read "is_biodegradable" = p2.read "is_biodegradable")
    (hr : p1.read "is_recyclable" = p2.read "is_recyclable")
    (hp : p1.read "is_plastic_free" = p2.read "is_plastic_free") :
    ProductViewModal strGtZero isOpen p1 user = ProductViewModal strGtZero isOpen p2 user := by
  obtain ⟨a1, a2⟩ := ne_null_of_truthy p1 h1
  obtain ⟨b1, b2⟩ := ne_null_of_truthy p2 h2
  simp only [ProductViewModal, ProductViewModal.body, h1, h2, hres,
    getProp_eq_read p1 _ a1 a2, getProp_eq_read p2 _ b1 b2, ho, hb, hr, hp]

/-- The primary action is one of the two buttons of lines 151-169, with its click handler. -/
theorem primaryAction_cases (user isInStock : JSVal) (act : PrimaryAction × List Call)
    (h : primaryAction user isInStock = some act) :
    act = (PrimaryAction.addToCart, [Call.onAddToCart, Call.onClose]) ∨
      act = (PrimaryAction.viewProduct, [Call.onClose]) := by
  simp only [primaryAction, andThen_eq_some] at h
  obtain ⟨cond, -, hact⟩ := h
  cases cond with
  | true =>
    simp at hact
    exact Or.inl hact.symm
  | false =>
    simp at hact
    exact Or.inr hact.symm

/-- The condition of line 151 never throws. -/
theorem primaryAction_isSome (user isInStock : JSVal) :
    ∃ act, primaryAction user isInStock = some act := by
  unfold primaryAction
  by_cases hu : user.truthy = true
  · obtain ⟨t, ht⟩ := getProp_isSome_of_truthy user "user_type" hu
    rw [if_pos hu, ht, andThen_some, andThen_some]
    split <;> exact ⟨_, rfl⟩
  · rw [if_neg hu, andThen_some]
    exact ⟨_, rfl⟩

/-- The tags section never throws on an array. -/
theorem tagsSection_arr (strGtZero : String → Bool) (xs : List JSVal) :
    ∃ t, tagsSection strGtZero (JSVal.arr xs) = some t := by
  simp only [tagsSection, JSVal.getProp, beq_self_eq_true, if_true, andThen_some, gtZero]
  split <;> exact ⟨_, rfl⟩

/-- What a render that returns an element was built from. -/
theorem view_inv (strGtZero : String → Bool) (isOpen product user : JSVal) (v : ProductView)
    (h : ProductViewModal strGtZero isOpen product user = RenderResult.view v) :
    ∃ r act, resolve product = some r ∧ primaryAction user r.isInStock = some act ∧
      v.primary = act.1 ∧ v.primaryClick = act.2 ∧ v.closeClick = [Call.onClose] ∧
      v.headerCloseClick = [Call.onClose] := by
  unfold ProductViewModal at h
  split at h
  · cases h
  · split at h
    · rename_i v2 hb
      cases h
      simp only [ProductViewModal.body, andThen_eq_some] at hb
      obtain ⟨r, hr, tags, -, o1, -, o2, -, o3, -, o4, -, act, hact, hv⟩ := hb
      cases hv
      exact ⟨r, act, hr, hact, rfl, rfl, rfl, rfl⟩
    · cases h

/-! ## Theorems on `ProductViewModal` -/

/-- C1, as the source has it: whenever `ProductViewModal` renders, the primary action is the
"Add to Cart" control if and only if `user` is truthy, `user.user_type === 'customer'` and the
resolved stock flag `isInStock` is truthy; its click then calls `onAddToCart` and `onClose`.
In every other case the primary action is the "View Product" control, whose click calls only
`onClose`. -/
theorem primary_action_gating (strGtZero : String → Bool) (isOpen product user : JSVal)
    (v : ProductView) (h : ProductViewModal strGtZero isOpen product user = RenderResult.view v) :
    ∃ r, resolve product = some r ∧
      (v.primary = PrimaryAction.addToCart ↔
        (user.truthy = true ∧ user.getProp "user_type" = some (JSVal.str "customer")
          ∧ r.isInStock.truthy = true)) ∧
      (v.primary = PrimaryAction.addToCart → v.primaryClick = [Call.onAddToCart, Call.onClose]) ∧
      (v.primary ≠ PrimaryAction.addToCart →
        v.primary = PrimaryAction.viewProduct ∧ v.primaryClick = [Call.onClose]) := by
  unfold ProductViewModal at h
  split at h
  · cases h
  · split at h
    · rename_i v2 hb
      cases h
      simp only [ProductViewModal.body, andThen_eq_some] at hb
      obtain ⟨r, hr, tags, -, o1, -, o2, -, o3, -, o4, -, act, hact, hv⟩ := hb
      refine ⟨r, hr, ?_⟩
      cases hv
      simp only [primaryAction, andThen_eq_some] at hact
      obtain ⟨cond, hcond, hact⟩ := hact
      by_cases hu : user.truthy = true
      · rw [if_pos hu] at hcond
        obtain ⟨t, ht⟩ := getProp_isSome_of_truthy user "user_type" hu
        rw [ht] at hcond
        cases hcond
        by_cases hc : (t.strictEqStr "customer" && r.isInStock.truthy) = true
        · rw [if_pos hc] at hact
          cases hact
          simp only [Bool.and_eq_true, strictEqStr_iff] at hc
          simp [hu, ht, hc.1, hc.2]
        · rw [if_neg hc] at hact
          cases hact
          simp only [Bool.and_eq_true, strictEqStr_iff, not_and] at hc
          refine ⟨?_, ?_, ?_⟩
          · constructor
            · intro h; cases h
            · intro h
              have h1 : t = JSVal.str "customer" := Option.some.inj (ht.symm.trans h.2.1)
              exact absurd h.2.2 (by simpa using hc h1)
          · intro h; cases h
          · intro _; exact ⟨rfl, rfl⟩
      · rw [if_neg hu] at hcond
        cases hcond
        simp at hact
        cases hact
        simp [hu]
    · cases h

/-- Witness for C1: a customer viewing an in-stock product gets the "Add to Cart" control. -/
theorem primary_action_gating_witness :
    ProductViewModal (fun _ => false) (JSVal.bool true) sampleProduct sampleCustomer
        = RenderResult.view sampleView ∧
    ∃ r, resolve sampleProduct = some r ∧
      (sampleView.primary = PrimaryAction.addToCart ↔
        (sampleCustomer.truthy = true
          ∧ sampleCustomer.getProp "user_type" = some (JSVal.str "customer")
          ∧ r.isInStock.truthy = true)) ∧
      (sampleView.primary = PrimaryAction.addToCart →
        sampleView.primaryClick = [Call.onAddToCart, Call.onClose]) ∧
      (sampleView.primary ≠ PrimaryAction.addToCart →
        sampleView.primary = PrimaryAction.viewProduct
          ∧ sampleView.primaryClick = [Call.onClose]) :=
  ⟨rfl, primary_action_gating (fun _ => false) (JSVal.bool true) sampleProduct sampleCustomer
    sampleView rfl⟩

/-- Counterexample to C1 as worded: for the user record with `role: 'customer'` (and no
`user_type`) and a product in stock, the gate of the specification holds, yet the component
renders the "View Product" control, not "Add to Cart". -/
theorem primary_action_role_counterexample :
    (resolve (JSVal.obj [])).map Resolved.isInStock = some (JSVal.bool true) ∧
    specAddToCartGate sampleRoleUser (JSVal.bool true) = true ∧
    (ProductViewModal (fun _ => false) (JSVal.bool true) (JSVal.obj []) sampleRoleUser).view?.map
        ProductView.primary = some PrimaryAction.viewProduct ∧
    ¬ ((ProductViewModal (fun _ => false) (JSVal.bool true) (JSVal.obj []) sampleRoleUser).view?.map
        ProductView.primary = some PrimaryAction.addToCart ↔
          specAddToCartGate sampleRoleUser (JSVal.bool true) = true) := by
  refine ⟨rfl, rfl, rfl, ?_⟩
  decide

/-- C11, as the source has it: for every product that passes the guard of line 5, each resolved
value is the first truthy alias in the order fixed by lines 8-17, which is `primary_image` then
`image`; `average_rating`, `eco_rating`, then `rating`; `category_name` then `category`;
`description` then `short_description`; and for the rating shown, `eco_rating` then `rating`.
When no alias of a group is truthy the resolved value is that of the last alias (falsy, so the
image, description and category show nothing), the eco rating being `0`. -/
theorem alias_resolution (product : JSVal) (h : product.truthy = true) :
    ∃ r, resolve product = some r ∧
      r.productImage =
        (if (product.read "primary_image").truthy = true then product.read "primary_image"
         else product.read "image") ∧
      r.productRating =
        (if (product.read "average_rating").truthy = true then product.read "average_rating"
         else if (product.read "eco_rating").truthy = true then product.read "eco_rating"
         else product.read "rating") ∧
      r.productCategory =
        (if (product.read "category_name").truthy = true then product.read "category_name"
         else product.read "category") ∧
      r.productDescription =
        (if (product.read "description").truthy = true then product.read "description"
         else product.read "short_description") ∧
      r.ecoRating =
        (if (product.read "eco_rating").truthy = true then product.read "eco_rating"
         else if (product.read "rating").truthy = true then product.read "rating"
         else JSVal.num 0) := by
  obtain ⟨h1, h2⟩ := ne_null_of_truthy product h
  refine ⟨_, resolve_eq product h1 h2, ?_, ?_, ?_, ?_, ?_⟩ <;>
    simp only [JSVal.or]

/-- Witness for C11: with both names present the image is `primary_image` and the category is
`category_name`; no rating is present, so the eco rating is `0`. -/
theorem alias_resolution_witness :
    sampleBothAliases.truthy = true ∧
    (resolve sampleBothAliases).map Resolved.productImage = some (JSVal.str "api.png") ∧
    (resolve sampleBothAliases).map Resolved.productCategory = some (JSVal.str "Kitchen") ∧
    (resolve sampleBothAliases).map Resolved.ecoRating = some (JSVal.num 0) := by
  obtain ⟨r, hr, hi, -, hc, -, he⟩ := alias_resolution sampleBothAliases rfl
  rw [hr]
  exact ⟨rfl, congrArg some hi, congrArg some hc, congrArg some he⟩

/-- Counterexample to C11 as worded: for the product with `image: "mock.png"` and
`primary_image: "api.png"` the first listed alias that is present is `image`, yet the resolved
image is `primary_image`; likewise `category_name` wins over the first listed `category`. -/
theorem alias_order_counterexample :
    specResolve sampleBothAliases ["image", "primary_image"] = JSVal.str "mock.png" ∧
    (resolve sampleBothAliases).map Resolved.productImage = some (JSVal.str "api.png") ∧
    (resolve sampleBothAliases).map Resolved.productImage
      ≠ some (specResolve sampleBothAliases ["image", "primary_image"]) ∧
    specResolve sampleBothAliases ["category", "category_name"] = JSVal.str "Home" ∧
    (resolve sampleBothAliases).map Resolved.productCategory = some (JSVal.str "Kitchen") := by
  refine ⟨rfl, rfl, ?_, rfl, rfl⟩
  intro h
  have h3 : (resolve sampleBothAliases).map Resolved.productImage
      = some (JSVal.str "api.png") := rfl
  have h4 : specResolve sampleBothAliases ["image", "primary_image"]
      = JSVal.str "mock.png" := rfl
  rw [h3, h4] at h
  injection h with h
  injection h with h
  exact absurd h (by decide)

/-- C12, as the source has it: for each of the pairs `primary_image`/`image`,
`category_name`/`category`, `description`/`short_description` and `eco_rating`/`rating`, and
every truthy value `v`, a product in which only the second name of the pair is present, with
value `v`, is rendered exactly as a product with the same other fields in which only the first
name is present with value `v`. -/
theorem alias_display (strGtZero : String → Bool) (isOpen user v : JSVal)
    (ps1 ps2 : List (String × JSVal)) (a1 a2 : String) (hpair : (a1, a2) ∈ aliasPairs)
    (hv : v.truthy = true)
    (h1 : ps1.lookup a1 = some v) (h1n : ps1.lookup a2 = none)
    (h2 : ps2.lookup a2 = some v) (h2n : ps2.lookup a1 = none)
    (hother : ∀ k, k ≠ a1 → k ≠ a2 → ps1.lookup k = ps2.lookup k) :
    ProductViewModal strGtZero isOpen (JSVal.obj ps1) user
      = ProductViewModal strGtZero isOpen (JSVal.obj ps2) user := by
  have hr : ∀ k, k ≠ a1 → k ≠ a2 → (JSVal.obj ps1).read k = (JSVal.obj ps2).read k := by
    intro k ha hb
    rw [read_obj, read_obj, hother k ha hb]
  have r1a : (JSVal.obj ps1).read a1 = v := by rw [read_obj, h1]; rfl
  have r1b : (JSVal.obj ps1).read a2 = JSVal.undefined := by rw [read_obj, h1n]; rfl
  have r2a : (JSVal.obj ps2).read a1 = JSVal.undefined := by rw [read_obj, h2n]; rfl
  have r2b : (JSVal.obj ps2).read a2 = v := by rw [read_obj, h2]; rfl
  have n1 : JSVal.obj ps1 ≠ JSVal.null := fun h => JSVal.noConfusion h
  have n2 : JSVal.obj ps1 ≠ JSVal.undefined := fun h => JSVal.noConfusion h
  have m1 : JSVal.obj ps2 ≠ JSVal.null := fun h => JSVal.noConfusion h
  have m2 : JSVal.obj ps2 ≠ JSVal.undefined := fun h => JSVal.noConfusion h
  simp only [aliasPairs, List.mem_cons, List.mem_singleton, Prod.mk.injEq, List.not_mem_nil,
    or_false] at hpair
  rcases hpair with ⟨e1, e2⟩ | ⟨e1, e2⟩ | ⟨e1, e2⟩ | ⟨e1, e2⟩ <;> subst e1 <;> subst e2 <;>
    refine view_congr strGtZero isOpen user _ _ rfl rfl ?_
      (hr _ (by decide) (by decide)) (hr _ (by decide) (by decide))
      (hr _ (by decide) (by decide)) (hr _ (by decide) (by decide)) <;>
    rw [resolve_eq _ n1 n2, resolve_eq _ m1 m2]
  · simp only [r1a, r1b, r2a, r2b, or_of_truthy v _ hv, undefined_or,
      hr "name" (by decide) (by decide), hr "brand_name" (by decide) (by decide),
       hr "brand" (by decide) (by decide), hr "price" (by decide) (by decide),
       hr "average_rating" (by decide) (by decide), hr "eco_rating" (by decide) (by decide),
       hr "rating" (by decide) (by decide), hr "category_name" (by decide) (by decide),
       hr "category" (by decide) (by decide), hr "description" (by decide) (by decide),
       hr "short_description" (by decide) (by decide), hr "tags" (by decide) (by decide),
       hr "is_in_stock" (by decide) (by decide)]
  · simp only [r1a, r1b, r2a, r2b, or_of_truthy v _ hv, undefined_or,
      hr "primary_image" (by decide) (by decide), hr "image" (by decide) (by decide),
       hr "name" (by decide) (by decide), hr "brand_name" (by decide) (by decide),
       hr "brand" (by decide) (by decide), hr "price" (by decide) (by decide),
       hr "average_rating" (by decide) (by decide), hr "eco_rating" (by decide) (by decide),
       hr "rating" (by decide) (by decide), hr "description" (by decide) (by decide),
       hr "short_description" (by decide) (by decide), hr "tags" (by decide) (by decide),
       hr "is_in_stock" (by decide) (by decide)]
  · simp only [r1a, r1b, r2a, r2b, or_of_truthy v _ hv, undefined_or,
      hr "primary_image" (by decide) (by decide), hr "image" (by decide) (by decide),
       hr "name" (by decide) (by decide), hr "brand_name" (by decide) (by decide),
       hr "brand" (by decide) (by decide), hr "price" (by decide) (by decide),
       hr "average_rating" (by decide) (by decide), hr "eco_rating" (by decide) (by decide),
       hr "rating" (by decide) (by decide), hr "category_name" (by decide) (by decide),
       hr "category" (by decide) (by decide), hr "tags" (by decide) (by decide),
       hr "is_in_stock" (by decide) (by decide)]
  · simp only [r1a, r1b, r2a, r2b, or_of_truthy v _ hv, undefined_or,
      hr "primary_image" (by decide) (by decide), hr "image" (by decide) (by decide),
       hr "name" (by decide) (by decide), hr "brand_name" (by decide) (by decide),
       hr "brand" (by decide) (by decide), hr "price" (by decide) (by decide),
       hr "average_rating" (by decide) (by decide), hr "category_name" (by decide) (by decide),
       hr "category" (by decide) (by decide), hr "description" (by decide) (by decide),
       hr "short_description" (by decide) (by decide), hr "tags" (by decide) (by decide),
       hr "is_in_stock" (by decide) (by decide)]

/-- Witness for C12: the product with only `image` is rendered as the product with only
`primary_image`. -/
theorem alias_display_witness :
    ProductViewModal (fun _ => false) (JSVal.bool true)
        (JSVal.obj [("primary_image", JSVal.str "p.png"), ("name", JSVal.str "Soap")])
        sampleCustomer
      = ProductViewModal (fun _ => false) (JSVal.bool true)
        (JSVal.obj [("image", JSVal.str "p.png"), ("name", JSVal.str "Soap")]) sampleCustomer :=
  alias_display (fun _ => false) (JSVal.bool true) sampleCustomer (JSVal.str "p.png")
    [("primary_image", JSVal.str "p.png"), ("name", JSVal.str "Soap")]
    [("image", JSVal.str "p.png"), ("name", JSVal.str "Soap")] "primary_image" "image"
    (by decide) rfl rfl rfl rfl rfl
    (fun k ha hb => by
      simp [List.lookup, beq_eq_false_iff_ne.mpr ha, beq_eq_false_iff_ne.mpr hb])

/-- Counterexample to C12 as worded.  (1) The product whose only rating field is
`average_rating: 4` shows "Eco Rating: 0/5", while the product whose only rating field is
`rating: 4` shows "Eco Rating: 4/5": line 17 does not read `average_rating`.  (2) With the falsy
value `0`, the product with only `category_name: 0` shows no category (`undefined`), the product
with only `category: 0` shows `0`. -/
theorem alias_display_counterexample :
    (ProductViewModal (fun _ => false) (JSVal.bool true) sampleAverageRated
        JSVal.undefined).view?.map ProductView.ecoRating = some (JSVal.num 0) ∧
    (ProductViewModal (fun _ => false) (JSVal.bool true) sampleRated
        JSVal.undefined).view?.map ProductView.ecoRating = some (JSVal.num 4) ∧
    ProductViewModal (fun _ => false) (JSVal.bool true) sampleAverageRated JSVal.undefined
      ≠ ProductViewModal (fun _ => false) (JSVal.bool true) sampleRated JSVal.undefined ∧
    (ProductViewModal (fun _ => false) (JSVal.bool true)
        (JSVal.obj [("category_name", JSVal.num 0)])
        JSVal.undefined).view?.map ProductView.category = some JSVal.undefined ∧
    (ProductViewModal (fun _ => false) (JSVal.bool true)
        (JSVal.obj [("category", JSVal.num 0)])
        JSVal.undefined).view?.map ProductView.category = some (JSVal.num 0) := by
  refine ⟨rfl, rfl, ?_, rfl, rfl⟩
  intro h
  have h3 := congrArg (fun x => x.view?.map ProductView.ecoRating) h
  have h4 : some (JSVal.num 0) = some (JSVal.num 4) := h3
  injection h4 with h4
  injection h4 with h4
  exact absurd h4 (by decide)

/-- C13: in every rendered view, the click handler of the "Add to Cart" control calls
`onAddToCart` once and then `onClose` once, in that order; the handlers of the secondary "Close"
control and of the header close control each call `onClose` once and never `onAddToCart`. -/
theorem click_handlers (strGtZero : String → Bool) (isOpen product user : JSVal)
    (v : ProductView)
    (h : ProductViewModal strGtZero isOpen product user = RenderResult.view v) :
    (v.primary = PrimaryAction.addToCart →
      v.primaryClick = [Call.onAddToCart, Call.onClose]) ∧
    v.closeClick = [Call.onClose] ∧
    v.headerCloseClick = [Call.onClose] ∧
    Call.onAddToCart ∉ v.closeClick ∧
    Call.onAddToCart ∉ v.headerCloseClick := by
  obtain ⟨r, act, -, hact, hp, hc, hcl, hh⟩ := view_inv strGtZero isOpen product user v h
  refine ⟨?_, hcl, hh, ?_, ?_⟩
  · intro hprim
    rcases primaryAction_cases user r.isInStock act hact with ha | ha
    · rw [hc, ha]
    · rw [hp, ha] at hprim
      cases hprim
  · rw [hcl]
    decide
  · rw [hh]
    decide

/-- Witness for C13: the view rendered for a customer and an in-stock product. -/
theorem click_handlers_witness :
    ProductViewModal (fun _ => false) (JSVal.bool true) sampleProduct sampleCustomer
        = RenderResult.view sampleView ∧
    sampleView.primary = PrimaryAction.addToCart ∧
    sampleView.primaryClick = [Call.onAddToCart, Call.onClose] ∧
    sampleView.closeClick = [Call.onClose] ∧
    sampleView.headerCloseClick = [Call.onClose] :=
  have h := click_handlers (fun _ => false) (JSVal.bool true) sampleProduct sampleCustomer
    sampleView rfl
  ⟨rfl, rfl, h.1 rfl, h.2.1, h.2.2.1⟩

/-- C14, as the source has it: the component returns `null` whenever `isOpen` is falsy (in
particular `false`) or `product` is falsy (in particular `null`), whatever the other arguments;
and whenever `isOpen` and `product` are truthy and `product.tags`, if truthy, is an array, it
returns an element, every other field being free to be missing. -/
theorem render_guard (strGtZero : String → Bool) (isOpen product user : JSVal) :
    ProductViewModal strGtZero (JSVal.bool false) product user = RenderResult.noOutput ∧
    ProductViewModal strGtZero isOpen JSVal.null user = RenderResult.noOutput ∧
    (isOpen.truthy = false ∨ product.truthy = false →
      ProductViewModal strGtZero isOpen product user = RenderResult.noOutput) ∧
    (isOpen.truthy = true → product.truthy = true →
      ((product.read "tags").truthy = true → ∃ xs, product.read "tags" = JSVal.arr xs) →
      ∃ v, ProductViewModal strGtZero isOpen product user = RenderResult.view v) := by
  refine ⟨rfl, ?_, ?_, ?_⟩
  · simp [ProductViewModal, JSVal.truthy]
  · intro h
    rcases h with h | h <;> simp [ProductViewModal, h]
  · intro ho hp ht
    obtain ⟨n1, n2⟩ := ne_null_of_truthy product hp
    have htags : ∃ t, tagsSection strGtZero ((product.read "tags").or (JSVal.arr [])) = some t := by
      by_cases hb : (product.read "tags").truthy = true
      · obtain ⟨xs, hxs⟩ := ht hb
        rw [or_of_truthy _ _ hb, hxs]
        exact tagsSection_arr strGtZero xs
      · simp only [JSVal.or, hb]
        exact tagsSection_arr strGtZero []
    obtain ⟨t, ht2⟩ := htags
    obtain ⟨act, hact⟩ := primaryAction_isSome user
      (if (product.read "is_in_stock").isDefined = true then product.read "is_in_stock"
       else JSVal.bool true)
    simp only [ProductViewModal, ho, hp, ProductViewModal.body, resolve_eq product n1 n2,
      andThen_some, ht2, getProp_eq_read product _ n1 n2, hact]
    exact ⟨_, rfl⟩

/-- Witness for C14: the product with every optional field missing is rendered. -/
theorem render_guard_witness :
    ProductViewModal (fun _ => false) (JSVal.bool true) (JSVal.obj []) JSVal.undefined
      = RenderResult.view sampleBareView ∧
    ∃ v, ProductViewModal (fun _ => false) (JSVal.bool true) (JSVal.obj []) JSVal.undefined
      = RenderResult.view v :=
  ⟨rfl, (render_guard (fun _ => false) (JSVal.bool true) (JSVal.obj []) JSVal.undefined).2.2.2
    rfl rfl (fun h => absurd h (by decide))⟩

/-- Counterexample to C14 as worded.  (1) With `isOpen` true and a non-null product whose
`tags` is the string `"eco"`, the component produces no element: it throws at
`productTags.map`.  (2) With `isOpen` true and `product` `undefined`, which is not `null`, it
returns `null`. -/
theorem render_guard_counterexample :
    ProductViewModal (fun _ => false) (JSVal.bool true) sampleStringTags JSVal.undefined
      = RenderResult.threw ∧
    (ProductViewModal (fun _ => false) (JSVal.bool true) sampleStringTags
      JSVal.undefined).view? = none ∧
    ProductViewModal (fun _ => false) (JSVal.bool true) JSVal.undefined JSVal.undefined
      = RenderResult.noOutput :=
  ⟨rfl, rfl, rfl⟩

/-! ## Theorems on `MerchantAuthModal` -/

/-- C2, as the source has it: for every HTTP failure response whose parsed body is not `null`,
with `msg` the message taken from the value of the body's first property (lines 88-90: a string
as is, a list joined with ", ", nothing for any other value), the displayed error is the first
truthy value among the body's `detail`, its `error`, its `message` and `msg`, and otherwise the
fixed string "Request failed". -/
theorem failure_message_order (env : Env) (onSuccess : Bool) (s : ModalState) (w : World)
    (r : Request) (data fv msg : JSVal) (hreq : submitRequest env s = some r)
    (h1 : data ≠ JSVal.null) (h2 : data ≠ JSVal.undefined)
    (hfv : firstVal data = some fv) (hmsg : msgOf fv = some msg) :
    ∃ detail error message,
      data.getProp "detail" = some detail ∧ data.getProp "error" = some error ∧
      data.getProp "message" = some message ∧
      (handleSubmit env onSuccess (FetchOutcome.response false (some data)) s w).1.error =
        (if detail.truthy = true then detail
         else if error.truthy = true then error
         else if message.truthy = true then message
         else if msg.truthy = true then msg
         else JSVal.str "Request failed") := by
  obtain ⟨detail, hd⟩ := getProp_isSome data "detail" h1 h2
  obtain ⟨error, he⟩ := getProp_isSome data "error" h1 h2
  obtain ⟨message, hm⟩ := getProp_isSome data "message" h1 h2
  refine ⟨detail, error, message, hd, he, hm, ?_⟩
  rw [handleSubmit_of_request env onSuccess _ s w r hreq]
  simp only [handleSubmitResume, failureMessage, hd, he, hm, hfv, hmsg, andThen_some,
    JSVal.orElse]
  split_ifs <;> rfl

/-- Witness for C2: the body with `detail` empty and `error` set displays the `error` field. -/
theorem failure_message_order_witness :
    (handleSubmit sampleEnv false (FetchOutcome.response false
        (some (JSVal.obj [("detail", JSVal.str ""), ("error", JSVal.str "bad")])))
        (initialState "login") emptyWorld).1.error = JSVal.str "bad" := by
  obtain ⟨detail, error, message, hd, he, hm, h⟩ :=
    failure_message_order sampleEnv false (initialState "login") emptyWorld
      sampleLoginRequest
      (JSVal.obj [("detail", JSVal.str ""), ("error", JSVal.str "bad")])
      (JSVal.str "") (JSVal.str "") rfl
      (fun h => JSVal.noConfusion h) (fun h => JSVal.noConfusion h) rfl rfl
  cases hd
  cases he
  cases hm
  exact h

/-- Counterexample to C2 as worded.  (1) The body `null` has no field at all, yet the displayed
error is not "Request failed" but "Network error. Please try again.".  (2) Only the first
property of the body is inspected for a field-level message: the body whose first property is
`code: 7` and whose second is `email: ["bad"]` displays "Request failed". -/
theorem failure_message_counterexample :
    (handleSubmit sampleEnv false (FetchOutcome.response false (some JSVal.null))
        (initialState "login") emptyWorld).1.error
      = JSVal.str "Network error. Please try again." ∧
    (handleSubmit sampleEnv false (FetchOutcome.response false (some JSVal.null))
        (initialState "login") emptyWorld).1.error
      ≠ JSVal.str "Request failed" ∧
    (handleSubmit sampleEnv false (FetchOutcome.response false
        (some (JSVal.obj [("code", JSVal.num 7), ("email", JSVal.arr [JSVal.str "bad"])])))
        (initialState "login") emptyWorld).1.error
      = JSVal.str "Request failed" := by
  refine ⟨rfl, ?_, rfl⟩
  intro h
  have h3 : (handleSubmit sampleEnv false (FetchOutcome.response false (some JSVal.null))
        (initialState "login") emptyWorld).1.error
      = JSVal.str "Network error. Please try again." := rfl
  rw [h3] at h
  injection h with h
  exact absurd h (by decide)

/-- C3, as the source has it: for every HTTP failure body that has no `detail`, `error` or
`message` field and whose first property has a non-empty name, the displayed error equals the
value of that property when it is a non-empty string, and equals the elements joined with ", "
when it is a list of strings and that join is non-empty. -/
theorem field_message (env : Env) (onSuccess : Bool) (s : ModalState) (w : World)
    (r : Request) (k : String) (v : JSVal) (rest : List (String × JSVal))
    (hreq : submitRequest env s = some r) (hk : k ≠ "")
    (hd : ((k, v) :: rest).lookup "detail" = none)
    (he : ((k, v) :: rest).lookup "error" = none)
    (hm : ((k, v) :: rest).lookup "message" = none) :
    (∀ m : String, v = JSVal.str m → m ≠ "" →
      (handleSubmit env onSuccess
        (FetchOutcome.response false (some (JSVal.obj ((k, v) :: rest)))) s w).1.error
        = JSVal.str m) ∧
    (∀ ss : List String, v = JSVal.arr (ss.map JSVal.str) → JSVal.joinWith ", " ss ≠ "" →
      (handleSubmit env onSuccess
        (FetchOutcome.response false (some (JSVal.obj ((k, v) :: rest)))) s w).1.error
        = JSVal.str (JSVal.joinWith ", " ss)) := by
  have hfv : firstVal (JSVal.obj ((k, v) :: rest)) = some v := by
    simp [firstVal, firstKey, JSVal.truthy, JSVal.typeofObject, JSVal.keys, hk, JSVal.toStr,
      JSVal.getProp, List.lookup, andThen_some]
  have hdet : (JSVal.obj ((k, v) :: rest)).getProp "detail" = some JSVal.undefined := by
    simp only [JSVal.getProp, hd, Option.getD_none]
  have herr : (JSVal.obj ((k, v) :: rest)).getProp "error" = some JSVal.undefined := by
    simp only [JSVal.getProp, he, Option.getD_none]
  have hmsg : (JSVal.obj ((k, v) :: rest)).getProp "message" = some JSVal.undefined := by
    simp only [JSVal.getProp, hm, Option.getD_none]
  rw [handleSubmit_of_request env onSuccess _ s w r hreq]
  constructor
  · intro m hv hne
    subst hv
    simp [handleSubmitResume, failureMessage, hfv, hdet, herr, hmsg, andThen_some,
      JSVal.orElse, JSVal.truthy, msgOf, hne]
  · intro ss hv hne
    subst hv
    simp [handleSubmitResume, failureMessage, hfv, hdet, herr, hmsg, andThen_some,
      JSVal.orElse, JSVal.truthy, msgOf, JSVal.join, elemStrs_map_str, hne]

/-- Witness for C3: the body whose only property is `field_name: ["too short"]` displays
"too short". -/
theorem field_message_witness :
    (handleSubmit sampleEnv false
      (FetchOutcome.response false
        (some (JSVal.obj [("field_name", JSVal.arr [JSVal.str "too short"])])))
      (initialState "login") emptyWorld).1.error = JSVal.str "too short" :=
  (field_message sampleEnv false (initialState "login") emptyWorld
    sampleLoginRequest
    "field_name" (JSVal.arr [JSVal.str "too short"]) [] rfl (by decide) rfl rfl rfl).2
    ["too short"] rfl (by decide)

/-- Counterexample to C3 as worded: the body whose only property is `field_name: ""` maps its
field to a string, yet the displayed error is "Request failed", not that string. -/
theorem field_message_empty_counterexample :
    (handleSubmit sampleEnv false
      (FetchOutcome.response false (some (JSVal.obj [("field_name", JSVal.str "")])))
      (initialState "login") emptyWorld).1.error = JSVal.str "Request failed" ∧
    (handleSubmit sampleEnv false
      (FetchOutcome.response false (some (JSVal.obj [("field_name", JSVal.str "")])))
      (initialState "login") emptyWorld).1.error ≠ JSVal.str "" := by
  refine ⟨rfl, ?_⟩
  intro h
  have h3 : (handleSubmit sampleEnv false
      (FetchOutcome.response false (some (JSVal.obj [("field_name", JSVal.str "")])))
      (initialState "login") emptyWorld).1.error = JSVal.str "Request failed" := rfl
  rw [h3] at h
  injection h with h
  exact absurd h (by decide)

/-- C4: for every HTTP success response whose body has the properties `access`, `refresh` and
`user`, with `a` and `b` the texts of the two tokens (the tokens themselves when they are
strings) and `js` the JSON serialisation of `user`, storage ends with `access_token = a`,
`refresh_token = b` and `user = js`; after the three writes `onSuccess` (when supplied) is called
once with the user record, and then the location is set to `/merchant-portal`; no error is
displayed and the form is no longer loading. -/
theorem success_persists_session (env : Env) (onSuccess : Bool) (s : ModalState) (w : World)
    (r : Request) (data access refresh user : JSVal) (a b js : String)
    (hreq : submitRequest env s = some r)
    (ha : data.getProp "access" = some access) (hat : access.toStr = some a)
    (hr : data.getProp "refresh" = some refresh) (hrt : refresh.toStr = some b)
    (hu : data.getProp "user" = some user) (hjs : user.stringify = some js) :
    ((handleSubmit env onSuccess (FetchOutcome.response true (some data)) s w).2.getItem
      "access_token" = some a) ∧
    ((handleSubmit env onSuccess (FetchOutcome.response true (some data)) s w).2.getItem
      "refresh_token" = some b) ∧
    ((handleSubmit env onSuccess (FetchOutcome.response true (some data)) s w).2.getItem
      "user" = some js) ∧
    ((handleSubmit env onSuccess (FetchOutcome.response true (some data)) s w).2.log =
      w.log ++ [Effect.fetch r, Effect.setItem "access_token" a,
                Effect.setItem "refresh_token" b, Effect.setItem "user" js]
            ++ (if onSuccess = true then [Effect.onSuccess user] else [])
            ++ [Effect.navigate "/merchant-portal"]) ∧
    ((handleSubmit env onSuccess (FetchOutcome.response true (some data)) s w).2.href
      = "/merchant-portal") ∧
    ((handleSubmit env onSuccess (FetchOutcome.response true (some data)) s w).1.error
      = JSVal.str "") ∧
    ((handleSubmit env onSuccess (FetchOutcome.response true (some data)) s w).1.isLoading
      = false) := by
  have hsv : user.stringifyVal = JSVal.str js := by simp [JSVal.stringifyVal, hjs]
  have hjs2 : (JSVal.str js).toStr = some js := rfl
  have n1 : ("access_token" : String) ≠ "refresh_token" := by decide
  have n2 : ("access_token" : String) ≠ "user" := by decide
  have n3 : ("refresh_token" : String) ≠ "user" := by decide
  rw [handleSubmit_of_request env onSuccess _ s w r hreq]
  cases onSuccess <;>
    simp [handleSubmitResume, successBranch, ha, hr, hu, hsv, hat, hrt,
      World.setItem, World.getItem, World.navigate, World.fetch, World.callOnSuccess,
      hjs2, lookup_setField_self, lookup_setField_ne _ _ _ _ n1,
      lookup_setField_ne _ _ _ _ n2, lookup_setField_ne _ _ _ _ n3]

/-- Witness for C4: the success body with `access: "A"`, `refresh: "R"` and `user` the object
with `id: 1` leaves `access_token = "A"`, `refresh_token = "R"` and `user` the serialised
object in storage, calls `onSuccess` once after the writes, and then navigates to the merchant
portal. -/
theorem success_persists_session_witness :
    ((handleSubmit sampleEnv true (FetchOutcome.response true (some sampleSuccessBody))
        (initialState "login") emptyWorld).2.getItem "access_token" = some "A") ∧
    ((handleSubmit sampleEnv true (FetchOutcome.response true (some sampleSuccessBody))
        (initialState "login") emptyWorld).2.getItem "refresh_token" = some "R") ∧
    ((handleSubmit sampleEnv true (FetchOutcome.response true (some sampleSuccessBody))
        (initialState "login") emptyWorld).2.getItem "user" = some "\x7b\"id\":1\x7d") ∧
    ((handleSubmit sampleEnv true (FetchOutcome.response true (some sampleSuccessBody))
        (initialState "login") emptyWorld).2.log =
      emptyWorld.log ++ [Effect.fetch sampleLoginRequest, Effect.setItem "access_token" "A",
                Effect.setItem "refresh_token" "R", Effect.setItem "user" "\x7b\"id\":1\x7d"]
            ++ (if true = true then [Effect.onSuccess (JSVal.obj [("id", JSVal.num 1)])] else [])
            ++ [Effect.navigate "/merchant-portal"]) ∧
    ((handleSubmit sampleEnv true (FetchOutcome.response true (some sampleSuccessBody))
        (initialState "login") emptyWorld).2.href = "/merchant-portal") :=
  have h := success_persists_session sampleEnv true (initialState "login") emptyWorld
    sampleLoginRequest sampleSuccessBody (JSVal.str "A") (JSVal.str "R")
    (JSVal.obj [("id", JSVal.num 1)]) "A" "R" "\x7b\"id\":1\x7d" rfl rfl rfl rfl rfl rfl rfl
  ⟨h.1, h.2.1, h.2.2.1, h.2.2.2.1, h.2.2.2.2.1⟩

/-- C5: whenever the request was sent and `fetch` rejects, the displayed error is exactly
"Network error. Please try again.", storage and location are untouched, the only collaborator
call made is the `fetch` itself (no `onSuccess`, no navigation), and the form is no longer
loading. -/
theorem network_failure (env : Env) (onSuccess : Bool) (s : ModalState) (w : World)
    (r : Request) (hreq : submitRequest env s = some r) :
    (handleSubmit env onSuccess FetchOutcome.rejected s w).1.error
      = JSVal.str "Network error. Please try again." ∧
    (handleSubmit env onSuccess FetchOutcome.rejected s w).2.storage = w.storage ∧
    (handleSubmit env onSuccess FetchOutcome.rejected s w).2.href = w.href ∧
    (handleSubmit env onSuccess FetchOutcome.rejected s w).2.log = w.log ++ [Effect.fetch r] ∧
    (handleSubmit env onSuccess FetchOutcome.rejected s w).1.isLoading = false := by
  rw [handleSubmit_of_request env onSuccess _ s w r hreq]
  exact ⟨rfl, rfl, rfl, rfl, rfl⟩

/-- Witness for C5: a rejected login request from an untouched form. -/
theorem network_failure_witness :
    submitRequest sampleEnv (initialState "login") = some sampleLoginRequest ∧
    (handleSubmit sampleEnv true FetchOutcome.rejected (initialState "login") emptyWorld).1.error
      = JSVal.str "Network error. Please try again." ∧
    (handleSubmit sampleEnv true FetchOutcome.rejected (initialState "login")
      emptyWorld).2.storage = [] :=
  ⟨rfl,
   (network_failure sampleEnv true (initialState "login") emptyWorld sampleLoginRequest rfl).1,
   (network_failure sampleEnv true (initialState "login") emptyWorld sampleLoginRequest rfl).2.1⟩

/-- C6: for every form state, in login mode the outbound payload is the object with exactly
the two properties `email` and `password`, holding `formData.email` and `formData.password`, and
the body of the request sent is its JSON serialisation; no registration field is sent. -/
theorem login_payload (env : Env) (s : ModalState) (r : Request) (h : s.authType = "login")
    (hreq : submitRequest env s = some r) :
    payload s.authType s.formData =
      JSVal.obj [("email", formField s.formData "email"),
                 ("password", formField s.formData "password")] ∧
    (payload s.authType s.formData).keys = ["email", "password"] ∧
    r.body =
      (JSVal.obj [("email", formField s.formData "email"),
                  ("password", formField s.formData "password")]).stringifyVal := by
  unfold submitRequest at hreq
  split at hreq
  · cases hreq
    simp [payload, h, JSVal.keys]
  · cases hreq

/-- Witness for C6: after typing `a@b.com` and `x` into the login form, the payload is the
object with `email: "a@b.com"` and `password: "x"`. -/
theorem login_payload_witness :
    sampleLoginState.authType = "login" ∧
    payload sampleLoginState.authType sampleLoginState.formData =
      JSVal.obj [("email", JSVal.str "a@b.com"), ("password", JSVal.str "x")] ∧
    (submitRequest sampleEnv sampleLoginState).map Request.body =
      some (JSVal.str "\x7b\"email\":\"a@b.com\",\"password\":\"x\"\x7d") :=
  ⟨rfl,
   (login_payload sampleEnv sampleLoginState
      { sampleLoginRequest with
        body := JSVal.str "\x7b\"email\":\"a@b.com\",\"password\":\"x\"\x7d" } rfl rfl).1,
   rfl⟩

/-- C7: in every state a mounted form reaches through its rendered inputs, its toggles, its
submit control and the completion of its requests, the form record has its ten properties with
`userType` equal to `merchant`, and in register mode the outbound payload has exactly the
properties `email`, `username`, `first_name`, `last_name`, `user_type`, `phone_number`,
`business_name`, `business_type`, `password`, `password_confirm`, each holding the corresponding
form field, `user_type` being `merchant` and `phone_number` the (possibly empty) string of the
phone input. -/
theorem register_payload (env : Env) (onSuccess : Bool) (type : String) (w : World)
    (evs : List Event)
    (h : (Form.run env onSuccess (Form.mount type w) evs).state.authType = "register") :
    ∃ email password confirmPassword firstName lastName username phoneNumber businessName
        businessType : String,
      (Form.run env onSuccess (Form.mount type w) evs).state.formData =
        [("email", email), ("password", password), ("confirmPassword", confirmPassword),
         ("firstName", firstName), ("lastName", lastName), ("username", username),
         ("phoneNumber", phoneNumber), ("businessName", businessName),
         ("businessType", businessType), ("userType", "merchant")] ∧
      payload (Form.run env onSuccess (Form.mount type w) evs).state.authType
          (Form.run env onSuccess (Form.mount type w) evs).state.formData =
        JSVal.obj [("email", JSVal.str email), ("username", JSVal.str username),
                   ("first_name", JSVal.str firstName), ("last_name", JSVal.str lastName),
                   ("user_type", JSVal.str "merchant"), ("phone_number", JSVal.str phoneNumber),
                   ("business_name", JSVal.str businessName),
                   ("business_type", JSVal.str businessType),
                   ("password", JSVal.str password),
                   ("password_confirm", JSVal.str confirmPassword)] := by
  have hs : FormShape (Form.run env onSuccess (Form.mount type w) evs).state.formData :=
    formShape_run env onSuccess evs (Form.mount type w) formShape_emptyForm
  obtain ⟨e, p, c, fn, ln, u, ph, bn, bt, hfd⟩ := hs
  refine ⟨e, p, c, fn, ln, u, ph, bn, bt, hfd, ?_⟩
  rw [h, hfd]
  by_cases hph : ph = ""
  · subst hph
    simp [payload, formField, List.lookup, JSVal.or, JSVal.truthy]
  · simp [payload, formField, List.lookup, JSVal.or, JSVal.truthy, hph]

/-- Witness for C7: a form mounted in login mode, switched to registration, with a username
typed and no phone number entered. -/
theorem register_payload_witness :
    (Form.run sampleEnv false (Form.mount "login" emptyWorld)
      [Event.toggleAuth, Event.input "username" "eco"]).state.authType = "register" ∧
    (∃ email password confirmPassword firstName lastName username phoneNumber businessName
        businessType : String,
      (Form.run sampleEnv false (Form.mount "login" emptyWorld)
        [Event.toggleAuth, Event.input "username" "eco"]).state.formData =
        [("email", email), ("password", password), ("confirmPassword", confirmPassword),
         ("firstName", firstName), ("lastName", lastName), ("username", username),
         ("phoneNumber", phoneNumber), ("businessName", businessName),
         ("businessType", businessType), ("userType", "merchant")] ∧
      payload (Form.run sampleEnv false (Form.mount "login" emptyWorld)
          [Event.toggleAuth, Event.input "username" "eco"]).state.authType
          (Form.run sampleEnv false (Form.mount "login" emptyWorld)
          [Event.toggleAuth, Event.input "username" "eco"]).state.formData =
        JSVal.obj [("email", JSVal.str email), ("username", JSVal.str username),
                   ("first_name", JSVal.str firstName), ("last_name", JSVal.str lastName),
                   ("user_type", JSVal.str "merchant"), ("phone_number", JSVal.str phoneNumber),
                   ("business_name", JSVal.str businessName),
                   ("business_type", JSVal.str businessType),
                   ("password", JSVal.str password),
                   ("password_confirm", JSVal.str confirmPassword)]) ∧
    payload "register" (Form.run sampleEnv false (Form.mount "login" emptyWorld)
        [Event.toggleAuth, Event.input "username" "eco"]).state.formData =
      JSVal.obj [("email", JSVal.str ""), ("username", JSVal.str "eco"),
                 ("first_name", JSVal.str ""), ("last_name", JSVal.str ""),
                 ("user_type", JSVal.str "merchant"), ("phone_number", JSVal.str ""),
                 ("business_name", JSVal.str ""), ("business_type", JSVal.str ""),
                 ("password", JSVal.str ""), ("password_confirm", JSVal.str "")] :=
  ⟨rfl, register_payload sampleEnv false "login" emptyWorld
    [Event.toggleAuth, Event.input "username" "eco"] rfl, rfl⟩

/-- C8: the URL of the request sent is the base followed by the endpoint.  The base is the
build-time variable `import.meta.env.VITE_API_BASE` when it is set (a non-empty string),
otherwise the runtime override `window.__API_BASE__` when that is set, otherwise
`http://127.0.0.1:5000`; the endpoint is `/api/auth/login/` in login mode and
`/api/auth/register/` in register mode. -/
theorem request_url (env : Env) (s : ModalState) :
    (∀ r, submitRequest env s = some r →
      ∃ base, (apiBase env).toStr = some base ∧ r.url = base ++ endpoint s.authType) ∧
    (∀ ps, env.importMetaEnv = JSVal.obj ps →
      viteApiBase env = (ps.lookup "VITE_API_BASE").getD JSVal.undefined) ∧
    (env.importMetaEnv = JSVal.undefined → viteApiBase env = JSVal.undefined) ∧
    (∀ b : String, viteApiBase env = JSVal.str b → b ≠ "" →
      (submitRequest env s).map Request.url = some (b ++ endpoint s.authType)) ∧
    (∀ b : String, (viteApiBase env).truthy = false → env.windowApiBase = JSVal.str b → b ≠ "" →
      (submitRequest env s).map Request.url = some (b ++ endpoint s.authType)) ∧
    ((viteApiBase env).truthy = false → env.windowApiBase.truthy = false →
      (submitRequest env s).map Request.url
        = some ("http://127.0.0.1:5000" ++ endpoint s.authType)) ∧
    (s.authType = "login" → endpoint s.authType = "/api/auth/login/") ∧
    (s.authType = "register" → endpoint s.authType = "/api/auth/register/") := by
  refine ⟨?_, ?_, ?_, ?_, ?_, ?_, ?_, ?_⟩
  · intro r hreq
    unfold submitRequest at hreq
    split at hreq
    · rename_i base hb
      cases hreq
      exact ⟨base, hb, rfl⟩
    · cases hreq
  · intro ps h
    simp [viteApiBase, h, JSVal.getProp]
  · intro h
    simp [viteApiBase, h, JSVal.getProp]
  · intro b h hb
    simp [submitRequest, apiBase, JSVal.or, h, JSVal.truthy, hb, JSVal.toStr]
  · intro b h hw hb
    simp only [submitRequest, apiBase, JSVal.or, h, hw]
    simp [JSVal.truthy, hb, JSVal.toStr]
  · intro h hw
    simp only [submitRequest, apiBase, JSVal.or, h, hw]
    simp [JSVal.toStr]
  · intro h
    simp [endpoint, h]
  · intro h
    simp [endpoint, h]

/-- Witness for C8: with `VITE_API_BASE` set, a login request goes to that base even though
a runtime override exists; with neither set, a registration request goes to the local default. -/
theorem request_url_witness :
    (submitRequest sampleViteEnv (initialState "login")).map Request.url
      = some ("https://api.example.org" ++ endpoint "login") ∧
    endpoint "login" = "/api/auth/login/" ∧
    (submitRequest sampleEnv (initialState "register")).map Request.url
      = some ("http://127.0.0.1:5000" ++ endpoint "register") ∧
    endpoint "register" = "/api/auth/register/" :=
  ⟨(request_url sampleViteEnv (initialState "login")).2.2.2.1 "https://api.example.org" rfl
      (by decide),
   (request_url sampleViteEnv (initialState "login")).2.2.2.2.2.2.1 rfl,
   (request_url sampleEnv (initialState "register")).2.2.2.2.2.1 rfl rfl,
   (request_url sampleEnv (initialState "register")).2.2.2.2.2.2.2 rfl⟩

/-- C9: for every prior state, `toggleAuthType` turns login into register and register into
login, replaces the form record by the empty form, so that each of the nine text fields reads
as the empty string whatever it held before, and sets the error to the empty string. -/
theorem toggle_resets_form (s : ModalState) :
    (toggleAuthType { s with authType := "login" }).authType = "register" ∧
    (toggleAuthType { s with authType := "register" }).authType = "login" ∧
    (toggleAuthType s).authType = (if s.authType = "login" then "register" else "login") ∧
    (toggleAuthType s).formData = emptyForm ∧
    textFields.map (formField (toggleAuthType s).formData)
      = List.replicate 9 (JSVal.str "") ∧
    (toggleAuthType s).error = JSVal.str "" := by
  refine ⟨rfl, rfl, ?_, rfl, rfl, rfl⟩
  simp [toggleAuthType]

/-- C10: in every state a mounted form reaches, at most one request is pending, `isLoading` is
true exactly while one is; while one is pending the submit control is disabled and activating it
changes nothing (no second request is sent); when none is pending, activating it sends the
request and sets `isLoading`; and whichever way the pending request ends, `isLoading` is false
afterwards and nothing is pending. -/
theorem submit_in_flight (env : Env) (onSuccess : Bool) (type : String) (w : World)
    (evs : List Event) :
    (Form.run env onSuccess (Form.mount type w) evs).pending.length ≤ 1 ∧
    ((Form.run env onSuccess (Form.mount type w) evs).state.isLoading = true ↔
      (Form.run env onSuccess (Form.mount type w) evs).pending ≠ []) ∧
    ((Form.run env onSuccess (Form.mount type w) evs).pending ≠ [] →
      submitDisabled (Form.run env onSuccess (Form.mount type w) evs).state = true ∧
      Form.step env onSuccess (Form.run env onSuccess (Form.mount type w) evs) Event.submit
        = Form.run env onSuccess (Form.mount type w) evs) ∧
    ((Form.run env onSuccess (Form.mount type w) evs).pending = [] →
      ∀ r, submitRequest env (Form.run env onSuccess (Form.mount type w) evs).state = some r →
        (Form.step env onSuccess (Form.run env onSuccess (Form.mount type w) evs)
            Event.submit).pending = [r] ∧
        (Form.step env onSuccess (Form.run env onSuccess (Form.mount type w) evs)
            Event.submit).state.isLoading = true) ∧
    (∀ o : FetchOutcome,
      (Form.step env onSuccess (Form.run env onSuccess (Form.mount type w) evs)
          (Event.settle o)).state.isLoading = false ∧
      (Form.step env onSuccess (Form.run env onSuccess (Form.mount type w) evs)
          (Event.settle o)).pending = []) := by
  have hc := consistent_run env onSuccess evs (Form.mount type w) (consistent_mount type w)
  generalize Form.run env onSuccess (Form.mount type w) evs = f at hc ⊢
  obtain ⟨hlen, hiff⟩ := hc
  refine ⟨hlen, hiff, ?_, ?_, ?_⟩
  · intro hne
    have hl : f.state.isLoading = true := hiff.mpr hne
    simp [Form.step, submitDisabled, hl]
  · intro hp r hreq
    have hl : f.state.isLoading = false := by
      cases hb : f.state.isLoading with
      | false => rfl
      | true => exact absurd hp (hiff.mp hb)
    simp [Form.step, submitDisabled, hl, hp, handleSubmitBegin, hreq]
  · intro o
    cases hp : f.pending with
    | nil =>
      have hl : f.state.isLoading = false := by
        cases hb : f.state.isLoading with
        | false => rfl
        | true => exact absurd hp (hiff.mp hb)
      simp [Form.step, hp, hl]
    | cons r rest =>
      have hrest : rest = [] := by
        rw [hp] at hlen
        simp at hlen
        exact hlen
      simp [Form.step, hp, hrest, resume_isLoading]

/-- Witness for C10: right after a first activation of the submit control a request is pending,
and a second activation leaves the form, its pending requests and the browser environment as
they are. -/
theorem submit_in_flight_witness :
    (Form.run sampleEnv false (Form.mount "login" emptyWorld) [Event.submit]).pending
      = [sampleLoginRequest] ∧
    (Form.run sampleEnv false (Form.mount "login" emptyWorld) [Event.submit]).pending ≠ [] ∧
    Form.step sampleEnv false
        (Form.run sampleEnv false (Form.mount "login" emptyWorld) [Event.submit]) Event.submit
      = Form.run sampleEnv false (Form.mount "login" emptyWorld) [Event.submit] :=
  ⟨rfl, fun h => List.noConfusion h,
   ((submit_in_flight sampleEnv false "login" emptyWorld [Event.submit]).2.2.1
      (fun h => List.noConfusion h)).2⟩

/-- C15: when the request completes but the parsed body is `null`, or the body cannot be parsed
as JSON, the displayed error is "Network error. Please try again." and not "Request failed",
on the HTTP-success branch and on the HTTP-failure branch alike; nothing is written to storage,
`onSuccess` is not called and no navigation occurs. -/
theorem null_body_network_error (env : Env) (onSuccess ok : Bool) (s : ModalState) (w : World)
    (r : Request) (json : Option JSVal) (hreq : submitRequest env s = some r)
    (hjson : json = none ∨ json = some JSVal.null) :
    (handleSubmit env onSuccess (FetchOutcome.response ok json) s w).1.error
      = JSVal.str "Network error. Please try again." ∧
    (handleSubmit env onSuccess (FetchOutcome.response ok json) s w).1.error
      ≠ JSVal.str "Request failed" ∧
    (handleSubmit env onSuccess (FetchOutcome.response ok json) s w).2.storage = w.storage ∧
    (handleSubmit env onSuccess (FetchOutcome.response ok json) s w).2.href = w.href ∧
    (handleSubmit env onSuccess (FetchOutcome.response ok json) s w).2.log
      = w.log ++ [Effect.fetch r] ∧
    (handleSubmit env onSuccess (FetchOutcome.response ok json) s w).1.isLoading = false := by
  have herr : (handleSubmit env onSuccess (FetchOutcome.response ok json) s w).1.error
      = JSVal.str "Network error. Please try again." := by
    rw [handleSubmit_of_request env onSuccess _ s w r hreq]
    rcases hjson with h | h <;> subst h <;> cases ok <;> rfl
  refine ⟨herr, ?_, ?_, ?_, ?_, ?_⟩
  · rw [herr]
    intro h
    injection h with h
    exact absurd h (by decide)
  all_goals
    rw [handleSubmit_of_request env onSuccess _ s w r hreq]
    rcases hjson with h | h <;> subst h <;> cases ok <;> rfl

/-- Witness for C15: a success response whose body is `null`, received by an untouched login
form. -/
theorem null_body_network_error_witness :
    submitRequest sampleEnv (initialState "login") = some sampleLoginRequest ∧
    (handleSubmit sampleEnv true (FetchOutcome.response true (some JSVal.null))
        (initialState "login") emptyWorld).1.error
      = JSVal.str "Network error. Please try again." ∧
    (handleSubmit sampleEnv true (FetchOutcome.response true (some JSVal.null))
        (initialState "login") emptyWorld).2.storage = [] ∧
    (handleSubmit sampleEnv true (FetchOutcome.response true (some JSVal.null))
        (initialState "login") emptyWorld).2.href = "/" :=
  have h := null_body_network_error sampleEnv true true (initialState "login") emptyWorld
    sampleLoginRequest (some JSVal.null) rfl (Or.inr rfl)
  ⟨rfl, h.1, h.2.2.1, h.2.2.2.1⟩

end Ecoshift
